import Mathlib

/-!
# Verification of the TNC355 post-processor emission engine

Shallow embedding of the post-processor sources (`emit_tnc.py`,
`ops_contour.py`, `ops_drill.py`, `ops_3d.py`, `router.py`, `state.py`,
`tool_db.py`, `fc_adapter.py`, `tnc355_post.py`) and proofs about the
claims on its behaviour.

Modelling conventions:
* Python floats are modelled as exact fractions `Q` (integer numerator over a
  positive integer denominator).  Every numeric value handled by the program
  is a finite decimal, so the embedding is exact on all inputs exercised here;
  the IEEE-754 artefacts the program never relies on (signed zero, binary
  rounding of non-representable decimals) are outside the model and noted at
  the definitions they would affect.
* Python module-level mutable globals (`_FEED_MODAL`, `_TOOL_INITIALIZED`)
  become an explicit state record `EmitS` threaded through the definitions.
* Output lists are passed in and returned (Python mutates `out` in place).
* String helpers (upper/lower/strip/join/…) are defined here over `List Char`
  so that every definition evaluates inside the kernel.
-/

namespace TNC

/-- Exact fraction with integer numerator `n` and denominator `d`.
All constructors in this development produce `d > 0`; operations preserve
positivity of the denominator.  Comparisons are by cross multiplication. -/
structure Q where
  n : Int
  d : Int
deriving DecidableEq, Repr

def Q.ofInt (i : Int) : Q := ⟨i, 1⟩

instance (k : Nat) : OfNat Q k := ⟨⟨(k : Int), 1⟩⟩

instance : Neg Q := ⟨fun a => ⟨-a.n, a.d⟩⟩

instance : Add Q := ⟨fun a b => ⟨a.n * b.d + b.n * a.d, a.d * b.d⟩⟩

instance : Sub Q := ⟨fun a b => ⟨a.n * b.d - b.n * a.d, a.d * b.d⟩⟩

instance : Mul Q := ⟨fun a b => ⟨a.n * b.n, a.d * b.d⟩⟩

/-- `|q|` (valid denominator sign is preserved: both components absolute). -/
def Q.abs (a : Q) : Q := ⟨a.n.natAbs, a.d.natAbs⟩

/-- Value-level `a < b` (cross multiplication, denominators positive). -/
def Q.blt (a b : Q) : Bool := a.n * b.d < b.n * a.d

/-- Value-level `a ≤ b`. -/
def Q.ble (a b : Q) : Bool := a.n * b.d ≤ b.n * a.d

/-- Value-level equality (Python `==` on floats compares values). -/
def Q.beq (a b : Q) : Bool := a.n * b.d = b.n * a.d

/-- Floor of a fraction (denominator positive ⇒ `ediv` is the floor). -/
def Q.floor (a : Q) : Int := Int.ediv a.n a.d

/-- Python `round()` to an integer: round half to even (banker's rounding). -/
def pyRound (a : Q) : Int :=
  let f := a.floor
  let r := a - Q.ofInt f
  if r.blt ⟨1, 2⟩ then f
  else if (⟨1, 2⟩ : Q).blt r then f + 1
  else if f % 2 = 0 then f else f + 1

/-- Python `round(v, nd)`: round half to even at `nd` decimal places. -/
def pyRoundTo (a : Q) (nd : Nat) : Q :=
  ⟨pyRound (a * ⟨(10 : Int) ^ nd, 1⟩), (10 : Int) ^ nd⟩

/-! ## String helpers (kernel-computable, on `List Char`) -/

def padZeroLeft (nd : Nat) (s : String) : String :=
  if s.length < nd then String.mk (List.replicate (nd - s.length) '0') ++ s
  else s

/-- Digit string (integer part, fractional part) for magnitude `a` scaled by
`10^nd`, i.e. the text Python produces for `a/10^nd` without sign. -/
def fmtMag (a : Nat) (nd : Nat) : String :=
  toString (a / 10 ^ nd) ++ "." ++ padZeroLeft nd (toString (a % 10 ^ nd))

/-- Python `f"{q:.nd f}"`: fixed-point with `nd` decimals, `-` sign only.
(`Q` has no negative zero, so a negative value rounding to 0 prints without
the `-` that an IEEE float would keep; no value in this development hits
that window.) -/
def fmtFixed (q : Q) (nd : Nat) : String :=
  (if q.n < 0 then "-" else "") ++ fmtMag ((pyRound (q * ⟨(10 : Int) ^ nd, 1⟩)).natAbs) nd

/-- Python `f"{q:+.nd f}"`: fixed-point with `nd` decimals and explicit sign. -/
def fmtSignedFixed (q : Q) (nd : Nat) : String :=
  (if q.n < 0 then "-" else "+") ++ fmtMag ((pyRound (q * ⟨(10 : Int) ^ nd, 1⟩)).natAbs) nd

/-- Python `str.upper()` (ASCII, which is all this program uses). -/
def strUpper (s : String) : String := String.mk (s.data.map Char.toUpper)

/-- Python `str.lower()`. -/
def strLower (s : String) : String := String.mk (s.data.map Char.toLower)

/-- Python `str.strip()`. -/
def strStrip (s : String) : String :=
  String.mk (((s.data.dropWhile Char.isWhitespace).reverse.dropWhile Char.isWhitespace).reverse)

/-- Python `line.lstrip().startswith(p)`. -/
def lstripStartsWith (s p : String) : Bool :=
  p.data.isPrefixOf (s.data.dropWhile Char.isWhitespace)

/-- Python `sep.join(parts)`. -/
def pyJoin (sep : String) : List String → String
  | [] => ""
  | [a] => a
  | a :: b :: rest => a ++ sep ++ pyJoin sep (b :: rest)

/-- Python `s.replace(".", ",")` (single-character pattern). -/
def replaceDotComma (s : String) : String :=
  String.mk (s.data.map fun c => if c = '.' then ',' else c)

/-! ## `emit_tnc.py` -/

def RAPID_FEED : Int := 9999

/-- The module-level mutable globals of `emit_tnc.py`:
`_FEED_MODAL` and `_TOOL_INITIALIZED`. -/
structure EmitS where
  feedModal : Option Int
  toolInitialized : Bool
deriving DecidableEq, Repr

/-- `reset_modals()`: resets `_FEED_MODAL` only (`_TOOL_INITIALIZED` is not
touched by any reset in the source). -/
def reset_modals (g : EmitS) : EmitS := { g with feedModal := none }

/-- `_fmt_coord(prefix, val, nd=3)` on a numeric value: sign `+` for
non-negative, the `-` of the formatted number otherwise. -/
def fmt_coordQ (pre : String) (q : Q) : String :=
  pre ++ (if 0 ≤ q.n then "+" else "") ++ fmtFixed q 3

/-- `_fmt_coord` on a possibly-absent value: `float(None)` raises, the
handler returns `None`. -/
def fmt_coord (pre : String) (v : Option Q) : Option String :=
  match v with
  | none => none
  | some q => some (fmt_coordQ pre q)

/-- A Python f-string renders the `None` returned by `_fmt_coord` as the
text `"None"`. -/
def optStr (o : Option String) : String :=
  match o with
  | some s => s
  | none => "None"

/-- `safe_z(out, z)`: emits the retract line only when a tool has been
initialised. -/
def safe_z (g : EmitS) (out : List String) (z : Q) : List String :=
  if g.toolInitialized then out ++ ["L  Z+" ++ fmtFixed z 3 ++ "  FMAX"]
  else out

def stop_spindle (out : List String) : List String := out ++ ["L  M5"]

def start_spindle (out : List String) : List String := out ++ ["L  M3"]

def coolant_off (out : List String) : List String := out ++ ["L  M9"]

def coolant_on (out : List String) : List String := out ++ ["L  M8"]

def tool_change (out : List String) : List String := out ++ ["L  M6"]

/-- `_fmt_feed_num(v)` = `int(round(float(v)))`; on a numeric value this
never takes the `None` branch. -/
def fmt_feed_num (q : Q) : Int := pyRound q

/-- `tool_call(out, tnum, rpm=None)`; `if rpm:` is Python truthiness
(`None` and `0` are falsy).  Sets `_TOOL_INITIALIZED`. -/
def tool_call (g : EmitS) (out : List String) (tnum : Int) (rpm : Option Int) :
    List String × EmitS :=
  let line :=
    match rpm with
    | some r =>
      if r ≠ 0 then "TOOL CALL " ++ toString tnum ++ " Z S" ++ toString r
      else "TOOL CALL " ++ toString tnum ++ " Z"
    | none => "TOOL CALL " ++ toString tnum ++ " Z"
  (out ++ [line], { g with toolInitialized := true })

/-- Accumulate the decimal digits of a non-empty digit list. -/
def digitsToNat (ds : List Char) : Nat :=
  ds.foldl (fun a c => a * 10 + (c.toNat - '0'.toNat)) 0

/-- One match of the regex `([+-]?\d+(?:\.\d+)?)` at the head of the input;
returns the parsed value and the unconsumed input. -/
def parseAxisNum (cs : List Char) : Option (Q × List Char) :=
  let sgn : Int := match cs with | '-' :: _ => -1 | _ => 1
  let cs1 := match cs with | '+' :: r => r | '-' :: r => r | r => r
  let ip := cs1.takeWhile Char.isDigit
  let cs2 := cs1.dropWhile Char.isDigit
  if ip = [] then none
  else
    match cs2 with
    | '.' :: r =>
      let fp := r.takeWhile Char.isDigit
      let r2 := r.dropWhile Char.isDigit
      if fp = [] then some (⟨sgn * (digitsToNat ip : Int), 1⟩, cs2)
      else
        some (⟨sgn * ((digitsToNat ip * 10 ^ fp.length + digitsToNat fp : Nat) : Int),
               (10 : Int) ^ fp.length⟩, r2)
    | _ => some (⟨sgn * (digitsToNat ip : Int), 1⟩, cs2)

/-- Scan for `_AXIS_RE` matches: an `X`/`Y`/`Z` at the start or after a
whitespace, immediately followed by a number; later matches overwrite
earlier ones for the same axis (the Python loop assigns in order).  Fuel is
the remaining length, so it never runs out. -/
def axesScan : Nat → List Char → Bool → Option Q × Option Q × Option Q →
    Option Q × Option Q × Option Q
  | 0, _, _, acc => acc
  | _ + 1, [], _, acc => acc
  | fuel + 1, c :: rest, boundary, acc =>
    if boundary ∧ (c = 'X' ∨ c = 'Y' ∨ c = 'Z') then
      match parseAxisNum rest with
      | some (v, rest2) =>
        let acc2 :=
          if c = 'X' then (some v, acc.2.1, acc.2.2)
          else if c = 'Y' then (acc.1, some v, acc.2.2)
          else (acc.1, acc.2.1, some v)
        axesScan fuel rest2 false acc2
      | none => axesScan fuel rest c.isWhitespace acc
    else
      axesScan fuel rest c.isWhitespace acc

/-- `_extract_axes_from_line(line)`. -/
def extract_axes_from_line (line : String) : Option Q × Option Q × Option Q :=
  if line = "" then (none, none, none)
  else if ¬ lstripStartsWith line "L" then (none, none, none)
  else axesScan line.data.length line.data true (none, none, none)

/-- `state.py` `State`, together with the upper-case `X`/`Y`/`Z` keys that
`ops_drill._normalize_state` adds to the instance's `__dict__` (the drilling
emitter tracks its modal position in those, separately from the lower-case
fields used by the contour emitter). -/
structure MState where
  tool_active : Option Int := none
  x : Option Q := none
  y : Option Q := none
  z : Option Q := none
  X : Option Q := none
  Y : Option Q := none
  Z : Option Q := none
deriving DecidableEq, Repr

/-- `_state_coords(state)`. -/
def state_coords (st : Option MState) : Option Q × Option Q × Option Q :=
  match st with
  | none => (none, none, none)
  | some s => (s.x, s.y, s.z)

/-- The `f` argument of `_L`: either the string sentinel `"FMAX"` or a
numeric feed; `Option` for the `None` default. -/
inductive FeedV
  | fmax
  | val (q : Q)
deriving DecidableEq, Repr

def TOL6 : Q := ⟨1, 1000000⟩

def TOL9 : Q := ⟨1, 1000000000⟩

/-- One axis of the change test in `_append_changed`: a present value counts
as changed when no last value is known or the difference exceeds `1e-6`. -/
def axisChangedOne (v lastv : Option Q) : Bool :=
  match v with
  | none => false
  | some f =>
    match lastv with
    | none => true
    | some lv => TOL6.blt (f - lv).abs

/-- The `axis_changed` computation of `_append_changed` (lines 102–112),
including the recovery of the comparison baseline from the last output line
when the state knows no axis at all. -/
def axis_changed_calc (x y z : Option Q) (st : Option MState) (out : List String) : Bool :=
  let c := state_coords st
  let c :=
    match c, out.getLast? with
    | (none, none, none), some l => extract_axes_from_line l
    | c', _ => c'
  axisChangedOne x c.1 || axisChangedOne y c.2.1 || axisChangedOne z c.2.2

/-- The parts list built by `_L` together with the feed-modal side effect;
`_L` joins the parts with two spaces. -/
def L_build (x y z : Option Q) (f : Option FeedV) (korrektur : String) (g : EmitS) :
    List String × EmitS :=
  let parts := ["L"]
  let parts := match x with | some q => parts ++ [fmt_coordQ "X" q] | none => parts
  let parts := match y with | some q => parts ++ [fmt_coordQ "Y" q] | none => parts
  let parts := match z with | some q => parts ++ [fmt_coordQ "Z" q] | none => parts
  let parts := if korrektur ≠ "" then parts ++ [korrektur] else parts
  match f with
  | none => (parts, g)
  | some FeedV.fmax => (parts ++ ["F" ++ toString RAPID_FEED], g)
  | some (FeedV.val q) =>
    let fnum := fmt_feed_num q
    if some fnum ≠ g.feedModal then
      (parts ++ ["F" ++ toString fnum], { g with feedModal := some fnum })
    else (parts, g)

/-- `_L(x, y, z, f, korrektur)`. -/
def L_line (x y z : Option Q) (f : Option FeedV) (korrektur : String) (g : EmitS) :
    String × EmitS :=
  let r := L_build x y z f korrektur g
  (pyJoin "  " r.1, r.2)

/-- `_append_changed(out, x, y, z, f, korrektur, state)`. -/
def append_changed (g : EmitS) (out : List String) (x y z : Option Q)
    (f : Option FeedV) (korrektur : String) (st : Option MState) :
    List String × EmitS :=
  if axis_changed_calc x y z st out then
    let r := L_line x y z f korrektur g
    (out ++ [r.1], r.2)
  else (out, g)

/-- `_append_unique(out, line)` (the `line is None` guard cannot fire in the
model: every produced line is a string). -/
def append_unique (out : List String) (line : String) : List String :=
  if out.getLast? = some line then out else out ++ [line]

/-- `_CC(cx, cy)`. -/
def CC_line (cx cy : Option Q) : String :=
  "CC  " ++ optStr (fmt_coord "X" cx) ++ "  " ++ optStr (fmt_coord "Y" cy)

/-- `_C(x, y, cw, korrektur)`. -/
def C_line (x y : Option Q) (cw : Bool) (korrektur : String) : String :=
  let l := "C  " ++ optStr (fmt_coord "X" x) ++ "  " ++ optStr (fmt_coord "Y" y)
             ++ "  " ++ (if cw then "DR-" else "DR+")
  if korrektur ≠ "" then l ++ " " ++ korrektur else l

/-- `_fmt_number(v, "+.3f")` on a numeric value. -/
def fmt_number_p3 (q : Q) : String := fmtSignedFixed q 3

/-- `_fmt_negative(v)` on a numeric value: force the sign negative.
(`Q` has no `-0.0`, so input `0` prints `+0.000` where IEEE gives `-0.000`;
no caller passes `0`.) -/
def fmt_negative (q : Q) : String :=
  fmtSignedFixed (if 0 ≤ q.n then -q else q) 3

/-- `_fmt_time_seconds_with_comma(v)` on a numeric value. -/
def fmt_time_seconds_with_comma (q : Q) : String :=
  replaceDotComma (fmtFixed q 3)

/-- `_fmt_feed_num_scaled(v, scale=60.0)` on a numeric value. -/
def fmt_feed_num_scaled (q : Q) : Int := pyRound (q * ⟨60, 1⟩)

/-! ## Python attribute values

Operation metadata travels as `None`, booleans, strings or numbers. -/

inductive PyVal
  | none
  | bool (b : Bool)
  | str (s : String)
  | num (q : Q)
deriving DecidableEq, Repr

/-- Python truthiness of an attribute value. -/
def PyVal.truthy : PyVal → Bool
  | .none => false
  | .bool b => b
  | .str s => s ≠ ""
  | .num q => ¬ q.beq 0

/-- Python `a or b`. -/
def pyOr (a b : PyVal) : PyVal := if a.truthy then a else b

/-- `str(v)` for the number case (representation detail; no claim exercises
numeric tokens). -/
def qRepr (q : Q) : String := fmtFixed q 1

/-- `float(s)` on a string: plain decimal literals (the only shape this
pipeline produces; exponent/inf forms are outside the model). -/
def parseFloatStr (s : String) : Option Q :=
  match parseAxisNum (strStrip s).data with
  | some (v, []) => some v
  | _ => none

/-- `float(v)`. -/
def pyFloat (v : PyVal) : Option Q :=
  match v with
  | .num q => some q
  | .bool b => some (if b then 1 else 0)
  | .str s => parseFloatStr s
  | .none => none

/-- `str(v).split()[0]` (first whitespace-separated field; empty ⇒ the
`IndexError` path, handled as failure). -/
def firstField (s : String) : String :=
  String.mk ((strStrip s).data.takeWhile fun c => ¬ c.isWhitespace)

/-- `_to_float(value)` of `ops_contour.py` / `tool_db.py`: `float(v)`, with a
fallback to `float(str(v).split()[0])` for quantity strings like `"6.0 mm"`. -/
def to_float (v : PyVal) : Option Q :=
  match v with
  | .none => Option.none
  | .str s =>
    match parseFloatStr s with
    | some q => some q
    | none => if firstField s = "" then Option.none else parseFloatStr (firstField s)
  | _ => pyFloat v

/-- Truncation toward zero (Python `int()` on a float). -/
def qTrunc (a : Q) : Int :=
  if 0 ≤ a.n then Int.ediv a.n a.d else -(Int.ediv (-a.n) a.d)

/-- Digit-only integer literal parse (Python `int()` on a string). -/
def parseIntStr (s : String) : Option Int :=
  let t := (strStrip s).data
  let sgn : Int := match t with | '-' :: _ => -1 | _ => 1
  let ds := match t with | '+' :: r => r | '-' :: r => r | r => r
  if ds ≠ [] ∧ ds.all Char.isDigit then some (sgn * (digitsToNat ds : Int))
  else Option.none

/-- Python `int(v)`. -/
def pyInt (v : PyVal) : Option Int :=
  match v with
  | .num q => some (qTrunc q)
  | .bool b => some (if b then 1 else 0)
  | .str s => parseIntStr s
  | .none => Option.none

/-! ## `ops_contour.py` -/

/-- `_normalize_token(value)`: `None` stays `None`, anything else becomes
`str(value).strip().lower()`. -/
def normalize_token (v : PyVal) : Option String :=
  match v with
  | .none => Option.none
  | .bool b => some (strLower (strStrip (if b then "True" else "False")))
  | .str s => some (strLower (strStrip s))
  | .num q => some (strLower (strStrip (qRepr q)))

/-- `_normalize_bool(value)`: booleans pass through; otherwise the normalized
token is looked up in the accepted true/false spellings, anything else is
`False`. -/
def normalize_bool (v : PyVal) : Bool :=
  match v with
  | .bool b => b
  | _ =>
    match normalize_token v with
    | some t =>
      if t ∈ ["1", "true", "yes", "y", "on"] then true
      else if t ∈ ["0", "false", "no", "n", "off"] then false
      else false
    | Option.none => false

/-- Membership of a possibly-absent token in a tuple of spellings
(`None in (...)` is `False` for these tuples). -/
def tokIn (t : Option String) (l : List String) : Bool :=
  match t with
  | some s => l.contains s
  | Option.none => false

/-- The radius-mode derivation of `emit_contour_simple` (lines 121–140): note
that the side/direction resolution runs only when the normalized `UseComp`
flag is *false* (`if not use_comp_bool:`). -/
def radius_mode_calc (use_comp side direction : PyVal) : String :=
  let use_comp_bool := normalize_bool use_comp
  let side_token := normalize_token side
  let direction_token := normalize_token direction
  if ¬ use_comp_bool then
    if tokIn side_token ["left", "l", "g41", "rl"] then "RL"
    else if tokIn side_token ["right", "r", "g42", "rr"] then "RR"
    else if tokIn side_token ["inside", "inner", "in"] then
      if tokIn direction_token ["cw", "clockwise"] then "RR"
      else if tokIn direction_token ["ccw", "counterclockwise", "anti-clockwise", "anticlockwise"] then "RL"
      else "R0"
    else if tokIn side_token ["outside", "outer", "out"] then
      if tokIn direction_token ["cw", "clockwise"] then "RL"
      else if tokIn direction_token ["ccw", "counterclockwise", "anti-clockwise", "anticlockwise"] then "RR"
      else "R0"
    else "R0"
  else "R0"

/-- Toolbit object (`Diameter`/`ToolDiameter`/`Diam` best-effort lookups). -/
structure ToolObj where
  Diameter : PyVal := .none
  ToolDiameter : PyVal := .none
  Diam : PyVal := .none
deriving Repr

/-- Tool controller object, with the attributes read by `ops_contour.py`
(`Tool`/`Toolbit`/`ToolBit`) and by `tool_db.py` (`ToolNumber`, `Label`,
`Name`, spindle and feed properties). -/
structure ToolCtlObj where
  ToolNumber : PyVal := .none
  Label : String := ""
  Name : String := ""
  Tool : Option ToolObj := Option.none
  Toolbit : Option ToolObj := Option.none
  ToolBit : Option ToolObj := Option.none
  SpindleSpeed : PyVal := .none
  RPM : PyVal := .none
  Spindle : PyVal := .none
  HorizFeed : PyVal := .none
  VertFeed : PyVal := .none
deriving Repr

/-- A FreeCAD `Path.Command`: a name and a float-valued parameter dict. -/
structure Params where
  X : Option Q := Option.none
  Y : Option Q := Option.none
  Z : Option Q := Option.none
  I : Option Q := Option.none
  J : Option Q := Option.none
  R : Option Q := Option.none
  F : Option Q := Option.none
  P : Option Q := Option.none
  DR : Option Q := Option.none
deriving Repr, DecidableEq

structure Cmd where
  Name : String
  Parameters : Params
deriving Repr, DecidableEq

structure PathObj where
  Commands : List Cmd
deriving Repr

/-- Operation object (recursive through the dressup `Base` chain). -/
inductive OpObj where
  | mk (Active : Bool) (UseComp Side Direction : PyVal)
      (ToolController : Option ToolCtlObj)
      (Diameter ToolDiameter Diam : PyVal)
      (SafeHeight ClearanceHeight : PyVal)
      (Path : Option PathObj)
      (Base : Option OpObj)

def OpObj.Active : OpObj → Bool
  | .mk a _ _ _ _ _ _ _ _ _ _ _ => a

def OpObj.UseComp : OpObj → PyVal
  | .mk _ u _ _ _ _ _ _ _ _ _ _ => u

def OpObj.Side : OpObj → PyVal
  | .mk _ _ s _ _ _ _ _ _ _ _ _ => s

def OpObj.Direction : OpObj → PyVal
  | .mk _ _ _ d _ _ _ _ _ _ _ _ => d

def OpObj.ToolController : OpObj → Option ToolCtlObj
  | .mk _ _ _ _ tc _ _ _ _ _ _ _ => tc

def OpObj.Diameter : OpObj → PyVal
  | .mk _ _ _ _ _ d _ _ _ _ _ _ => d

def OpObj.ToolDiameter : OpObj → PyVal
  | .mk _ _ _ _ _ _ d _ _ _ _ _ => d

def OpObj.Diam : OpObj → PyVal
  | .mk _ _ _ _ _ _ _ d _ _ _ _ => d

def OpObj.SafeHeight : OpObj → PyVal
  | .mk _ _ _ _ _ _ _ _ s _ _ _ => s

def OpObj.ClearanceHeight : OpObj → PyVal
  | .mk _ _ _ _ _ _ _ _ _ c _ _ => c

def OpObj.Path : OpObj → Option PathObj
  | .mk _ _ _ _ _ _ _ _ _ _ p _ => p

def OpObj.Base : OpObj → Option OpObj
  | .mk _ _ _ _ _ _ _ _ _ _ _ b => b

/-- `_iter_op_chain` + `_get_op_attr` for a scalar attribute: walk the `Base`
chain (at most 16 objects, matching `range(16)`; structural data cannot
cycle, so the `seen` set is subsumed) and return the first non-`None`
value. -/
def get_op_attr (sel : OpObj → PyVal) : Nat → Option OpObj → PyVal
  | 0, _ => .none
  | _ + 1, Option.none => .none
  | fuel + 1, some o =>
    match sel o with
    | .none => get_op_attr sel fuel o.Base
    | v => v

/-- `_get_op_attr(op, "ToolController")`. -/
def get_op_attr_tc : Nat → Option OpObj → Option ToolCtlObj
  | 0, _ => Option.none
  | _ + 1, Option.none => Option.none
  | fuel + 1, some o =>
    match o.ToolController with
    | Option.none => get_op_attr_tc fuel o.Base
    | some tc => some tc

/-- `_get_prop(tc,"Tool") or _get_prop(tc,"Toolbit") or _get_prop(tc,"ToolBit")`
(objects are truthy, `None` is falsy). -/
def get_prop_tool (tc : ToolCtlObj) : Option ToolObj :=
  match tc.Tool with
  | some t => some t
  | Option.none =>
    match tc.Toolbit with
    | some t => some t
    | Option.none => tc.ToolBit

/-- The tool-diameter lookup of `emit_contour_simple` (lines 174–192). -/
def tool_diam_of (op : Option OpObj) : PyVal :=
  let fromTc :=
    match get_op_attr_tc 16 op with
    | some c =>
      match get_prop_tool c with
      | some t => pyOr t.Diameter (pyOr t.ToolDiameter t.Diam)
      | Option.none => PyVal.none
    | Option.none => PyVal.none
  match fromTc with
  | PyVal.none =>
    pyOr (get_op_attr (·.Diameter) 16 op)
      (pyOr (get_op_attr (·.ToolDiameter) 16 op) (get_op_attr (·.Diam) 16 op))
  | v => v

/-- The radius mode derived from an operation's chained metadata. -/
def radius_mode_of (op : Option OpObj) : String :=
  radius_mode_calc (get_op_attr (·.UseComp) 16 op) (get_op_attr (·.Side) 16 op)
    (get_op_attr (·.Direction) 16 op)

def isLinName (n : String) : Bool := ["G0", "G00", "G1", "G01"].contains n

def isArcName (n : String) : Bool := ["G2", "G02", "G3", "G03"].contains n

/-- Python `max(a, b)` (returns `a` when equal; same value either way). -/
def qmax (a b : Q) : Q := if a.blt b then b else a

/-- First linear move whose `Z` is negative (the plunge). -/
def plunge_index_calc (cmds : List Cmd) : Option Nat :=
  cmds.findIdx? fun c =>
    isLinName (strUpper c.Name) &&
      (match c.Parameters.Z with
       | some z => z.blt 0
       | Option.none => false)

/-- First linear move after the plunge carrying an `X` or `Y` word. -/
def entry_index_calc (cmds : List Cmd) : Option Nat :=
  match plunge_index_calc cmds with
  | Option.none => Option.none
  | some pidx =>
    match (cmds.drop (pidx + 1)).findIdx? (fun c =>
        isLinName (strUpper c.Name) && (c.Parameters.X.isSome || c.Parameters.Y.isSome)) with
    | some k => some (pidx + 1 + k)
    | Option.none => Option.none

/-- `lead_in`: some `X`/`Y`-bearing linear move strictly before the entry. -/
def lead_in_calc (cmds : List Cmd) : Bool :=
  match entry_index_calc cmds with
  | Option.none => false
  | some e =>
    (cmds.take e).any fun c =>
      isLinName (strUpper c.Name) && (c.Parameters.X.isSome || c.Parameters.Y.isSome)

/-- The lead-in-arc replacement index (lines 209–222): the command directly
before the entry, when it is an `X`/`Y`-bearing arc and compensation is to be
applied. -/
def replace_leadin_arc_index_calc (op : Option OpObj) (cmds : List Cmd) : Option Nat :=
  let use_comp_bool := normalize_bool (get_op_attr (·.UseComp) 16 op)
  let rm := radius_mode_of op
  match entry_index_calc cmds with
  | some e =>
    if ¬ use_comp_bool ∧ (rm = "RL" ∨ rm = "RR") ∧ lead_in_calc cmds ∧ 0 < e then
      match cmds.get? (e - 1) with
      | some cand =>
        if isArcName (strUpper cand.Name) ∧
            (cand.Parameters.X.isSome ∨ cand.Parameters.Y.isSome) then some (e - 1)
        else Option.none
      | Option.none => Option.none
    else Option.none
  | Option.none => Option.none

/-- Per-invocation constants of the contour emitter's command loop. -/
structure CCtx where
  radius_mode : String
  entryIndex : Option Nat
  replaceIdx : Option Nat
  rnd_radius : Q
  feed_xy : Option Q
  feed_z : Option Q
deriving Repr

/-- Mutable state of the contour emitter's command loop. -/
structure CLoop where
  out : List String
  st : MState
  g : EmitS
  rnd_emitted : Bool
  leadin_arc_replaced : Bool
deriving Repr

/-- The `Z`-move sub-step shared by the linear and arc branches
(`if z is not None: if state.z is None or abs(state.z - z) > 1e-9: …`). -/
def contour_z_move (ls : CLoop) (zv : Option Q) (f : Option FeedV) : CLoop :=
  match zv with
  | Option.none => ls
  | some z =>
    if (match ls.st.z with
        | Option.none => true
        | some sz => TOL9.blt (sz - z).abs) then
      let r := append_changed ls.g ls.out Option.none Option.none (some z) f "" (some ls.st)
      { ls with out := r.1, g := r.2, st := { ls.st with z := some z } }
    else ls

/-- One iteration of the `for idx, cmd in enumerate(commands)` loop of
`emit_contour_simple` (lines 225–321). -/
def contourStep (ctx : CCtx) (ls : CLoop) (i : Nat) (c : Cmd) : CLoop :=
  let name := strUpper c.Name
  let p := c.Parameters
  let phase_before_entry :=
    match ctx.entryIndex with
    | some e => decide (i < e)
    | Option.none => false
  let phase_entry :=
    match ctx.entryIndex with
    | some e => decide (i = e)
    | Option.none => false
  if isLinName name then
    let rapid := name ∈ ["G0", "G00"]
    let ls := contour_z_move ls p.Z (if rapid then some FeedV.fmax else ctx.feed_z.map FeedV.val)
    if p.X.isSome ∨ p.Y.isSome then
      let entryComp := phase_entry
        && (decide (ctx.radius_mode = "RL") || decide (ctx.radius_mode = "RR"))
        && ! ls.leadin_arc_replaced
      let out1 :=
        if phase_before_entry then ls.out
        else if entryComp && ! ls.rnd_emitted then
          ls.out ++ ["RND R" ++ fmtFixed ctx.rnd_radius 1]
        else ls.out
      let rnd1 := if ! phase_before_entry && entryComp then true else ls.rnd_emitted
      let comp :=
        if phase_before_entry then "R0"
        else if entryComp then ctx.radius_mode
        else ""
      let r := append_changed ls.g out1 p.X p.Y Option.none
        (if rapid then some FeedV.fmax else ctx.feed_xy.map FeedV.val) comp (some ls.st)
      let st1 := match p.X with | some v => { ls.st with x := some v } | Option.none => ls.st
      let st2 := match p.Y with | some v => { st1 with y := some v } | Option.none => st1
      { out := r.1, st := st2, g := r.2, rnd_emitted := rnd1,
        leadin_arc_replaced := ls.leadin_arc_replaced }
    else ls
  else if isArcName name then
    let ls := contour_z_move ls p.Z (ctx.feed_z.map FeedV.val)
    if ctx.replaceIdx = some i then
      let out1 :=
        if ¬ ls.rnd_emitted then ls.out ++ ["RND R" ++ fmtFixed ctx.rnd_radius 1]
        else ls.out
      let r := append_changed ls.g out1 p.X p.Y Option.none (ctx.feed_xy.map FeedV.val)
        ctx.radius_mode (some ls.st)
      { out := r.1, st := { ls.st with x := p.X, y := p.Y }, g := r.2,
        rnd_emitted := true, leadin_arc_replaced := true }
    else
      let out1 := if p.I.isSome ∧ p.J.isSome then ls.out ++ [CC_line p.I p.J] else ls.out
      let out2 := out1 ++ [C_line p.X p.Y (["G2", "G02"].contains name) ""]
      { ls with out := out2, st := { ls.st with x := p.X, y := p.Y } }
  else ls

/-- The enumerated command loop. -/
def contourLoop (ctx : CCtx) : Nat → List Cmd → CLoop → CLoop
  | _, [], ls => ls
  | i, c :: rest, ls => contourLoop ctx (i + 1) rest (contourStep ctx ls i c)

/-- `tool_radius = tool_diam_mm / 2.0 if tool_diam_mm else 0.0`
(`None` and `0.0` are both falsy). -/
def tool_radius_of (op : Option OpObj) : Q :=
  match to_float (tool_diam_of op) with
  | some d => if ¬ d.beq 0 then d * ⟨1, 2⟩ else (0 : Q)
  | Option.none => (0 : Q)

/-- `rnd_radius = round(max(1.05 * tool_radius, tool_radius + 0.5), 1)`
(`1.05` is modelled as the exact decimal `21/20`). -/
def rnd_radius_of (op : Option OpObj) : Q :=
  pyRoundTo (qmax (⟨21, 20⟩ * tool_radius_of op) (tool_radius_of op + ⟨1, 2⟩)) 1

/-- The loop context assembled by `emit_contour_simple`. -/
def contour_ctx (op : Option OpObj) (cmds : List Cmd) (feed_xy feed_z : Option Q) : CCtx :=
  ⟨radius_mode_of op, entry_index_calc cmds, replace_leadin_arc_index_calc op cmds,
   rnd_radius_of op, feed_xy, feed_z⟩

/-- `emit_contour_simple(out, commands, state, feed_xy, feed_z, op)`.
`CONTOUR_DEBUG` is `False` in the source, so `_append_debug` appends
nothing. -/
def emit_contour_simple (g : EmitS) (out : List String) (cmds : List Cmd) (st : MState)
    (feed_xy feed_z : Option Q) (op : Option OpObj) : List String × MState × EmitS :=
  if (radius_mode_of op = "RL" ∨ radius_mode_of op = "RR") ∧
      (¬ lead_in_calc cmds ∨ entry_index_calc cmds = Option.none) then
    (out ++ ["(ERROR: RL/RR requires Lead-In)", "(Contour aborted)"], st, g)
  else
    let ls := contourLoop (contour_ctx op cmds feed_xy feed_z) 0 cmds ⟨out, st, g, false, false⟩
    (ls.out, ls.st, ls.g)

/-! ## `ops_drill.py` -/

/-- `_dg_key` result: every numeric field has passed `round(float(v), 6)`,
so all fractions share the denominator `10^6` and structural equality
coincides with the value equality of the Python tuple comparison. -/
structure DGKey where
  kind : String
  depth : Q
  rplane : Q
  feed : Q
  dwell : Q
  peck : Option Q
deriving DecidableEq, Repr

/-- `_dg_key(kind, depth, rplane, feed, dwell, peck)`; `_q(None)` keeps
`None`, numeric fields are rounded to 6 decimals. -/
def dg_key (kind : String) (depth rplane feed dwell : Q) (peck : Option Q) : DGKey :=
  ⟨strUpper kind, pyRoundTo depth 6, pyRoundTo rplane 6, pyRoundTo feed 6,
   pyRoundTo dwell 6, peck.map (pyRoundTo · 6)⟩

/-- The `dg` accumulator dict (starts as `{"active": False}`; absent keys
are `Option.none` and the `dict.get` defaults live at the readers). -/
structure DG where
  active : Bool := false
  key : Option DGKey := Option.none
  kind : Option String := Option.none
  depth : Option Q := Option.none
  r : Option Q := Option.none
  feed : Option Q := Option.none
  dwell : Option Q := Option.none
  peck : Option Q := Option.none
  pts : List (Option Q × Option Q) := []
deriving Repr

/-- `_emit_cycle_def(out, dg)`: the six `CYCL DEF 1.0` … `CYCL DEF 1.5`
lines.  (`_fmt_feed_num_scaled` cannot return `None` on a numeric feed, so
the `fnum = 60` fallback is dead in the model.) -/
def emit_cycle_def (out : List String) (dg : DG) : List String :=
  let kind := strUpper (dg.kind.getD "G81")
  let depth := dg.depth.getD (-5)
  let rplane := dg.r.getD 2
  let feed := dg.feed.getD 80
  let dwell := dg.dwell.getD 0
  let abst := fmt_negative rplane
  let tiefe := fmt_number_p3 depth
  let fnum := fmt_feed_num_scaled feed
  let vzeit := fmt_time_seconds_with_comma dwell
  out ++ ["CYCL DEF 1.0 TIEFBOHREN",
          "CYCL DEF 1.1 ABST " ++ abst,
          "CYCL DEF 1.2 TIEFE " ++ tiefe,
          (match dg.peck with
           | some p => "CYCL DEF 1.3 ZUSTLG " ++ fmt_negative p
           | Option.none => "CYCL DEF 1.3 ZUSTLG " ++ tiefe),
          (if kind = "G82" then "CYCL DEF 1.4 VZEIT " ++ vzeit
           else "CYCL DEF 1.4 VZEIT 0,000"),
          "CYCL DEF 1.5 F " ++ toString fnum]

/-- `_flush_drill_group(out, dg)`. -/
def flush_drill_group (g : EmitS) (out : List String) (dg : DG) :
    List String × DG × EmitS :=
  if ! dg.active then (out, dg, g)
  else
    match dg.pts with
    | [] => (out, { dg with active := false }, g)
    | _ =>
      let out1 := emit_cycle_def out dg
      let r := dg.pts.foldl
        (fun (acc : List String × EmitS) pt =>
          let l := L_line pt.1 pt.2 Option.none (some FeedV.fmax) "" acc.2
          (append_unique acc.1 l.1 ++ ["CYCL CALL"], l.2))
        (out1, g)
      (r.1, { dg with active := false, pts := [] }, r.2)

/-- `_normalize_state(state)`: the model's `MState` already carries the
upper-case `X`/`Y`/`Z` keys that `setdefault` would add to the shared
`State.__dict__`, so this is the identity. -/
def normalize_state (st : MState) : MState := st

/-- Placeholder for the Python `repr` of a parameter dict inside the
`; WARN: UNSUPPORTED` diagnostic; the exact repr text is not modelled and no
theorem depends on it. -/
def paramsRepr (_p : Params) : String := "<params>"

/-- Loop state of `_emit_literal_with_drill_grouping`. -/
structure DLoop where
  out : List String
  st : MState
  dg : DG
  g : EmitS
deriving Repr

/-- One iteration of the command loop of `_emit_literal_with_drill_grouping`
(lines 123–185), including the trailing `update modals` block (skipped by the
`continue` of the ignore/`G80` branches). -/
def drill_step (peck : Option Q) (ls : DLoop) (c : Cmd) : DLoop :=
  let name := strUpper c.Name
  let par := c.Parameters
  if ["(DRILLING)", "(BEGIN DRILLING)", "G90", "G98"].contains name then ls
  else if name = "G80" then
    let dg0 := if peck.isSome then { ls.dg with peck := peck } else ls.dg
    let r := flush_drill_group ls.g ls.out dg0
    { ls with out := r.1, dg := r.2.1, g := r.2.2 }
  else
    let X := match par.X with | some v => some v | Option.none => ls.st.X
    let Y := match par.Y with | some v => some v | Option.none => ls.st.Y
    let Z := match par.Z with | some v => some v | Option.none => ls.st.Z
    let F := par.F
    let ls1 :=
      if ["G0", "G00"].contains name then
        let l := L_line X Y Z (some FeedV.fmax) "" ls.g
        { ls with out := append_unique ls.out l.1, g := l.2 }
      else if ["G1", "G01"].contains name then
        let l := L_line X Y Z (F.map FeedV.val) "" ls.g
        { ls with out := ls.out ++ [l.1], g := l.2 }
      else if ["G81", "G82", "G83"].contains name then
        let depth := par.Z.getD (-5)
        let rplane := par.R.getD 2
        let feed := par.F.getD 80
        let dwell := if name = "G82" then par.P.getD 0 else (0 : Q)
        let key := dg_key name depth rplane feed dwell peck
        let flushed :=
          if ¬ ls.dg.active ∨ ls.dg.key ≠ some key then
            let dgp := if peck.isSome then { ls.dg with peck := peck } else ls.dg
            let r := flush_drill_group ls.g ls.out dgp
            (r.1,
             ({ active := true, key := some key, kind := some name,
                depth := some depth, r := some rplane, feed := some feed,
                dwell := if dwell.beq 0 then Option.none else some dwell,
                peck := peck, pts := [] } : DG),
             r.2.2)
          else (ls.out, ls.dg, ls.g)
        { out := flushed.1,
          st := ls.st,
          dg := { flushed.2.1 with pts := flushed.2.1.pts ++ [(X, Y)] },
          g := flushed.2.2 }
      else
        { ls with out := ls.out ++ ["; WARN: UNSUPPORTED " ++ name ++ " " ++ paramsRepr par] }
    { ls1 with st :=
        { ls1.st with
          X := if X.isSome then X else ls1.st.X,
          Y := if Y.isSome then Y else ls1.st.Y,
          Z := if Z.isSome then Z else ls1.st.Z } }

/-- `_emit_literal_with_drill_grouping(out, pth, state, peck)`. -/
def emit_literal_with_drill_grouping (g : EmitS) (out : List String)
    (pth : Option PathObj) (st : MState) (peck : Option Q) :
    List String × MState × EmitS :=
  match pth with
  | Option.none => (out, st, g)
  | some p =>
    let st0 := normalize_state st
    let ls := p.Commands.foldl (drill_step peck) ⟨out, st0, {}, g⟩
    let dg := if peck.isSome then { ls.dg with peck := peck } else ls.dg
    let r := flush_drill_group ls.g ls.out dg
    (r.1, ls.st, r.2.2)

/-! ## `tool_db.py` -/

structure ToolInfo where
  tnum : Int
  label : String := ""
  diam_mm : Option Q := Option.none
  rpm : Option Int := Option.none
  feed_xy_mmmin : Option Int := Option.none
  feed_z_mmmin : Option Int := Option.none
deriving Repr, DecidableEq

/-- `ToolDB.tools`: a dict keyed by tool number.  Later insertions are
prepended, and lookup takes the first hit, matching dict overwrite
semantics. -/
abbrev ToolDB := List (Int × ToolInfo)

/-- `ToolDB.get(tnum)`. -/
def db_get (db : ToolDB) (tnum : Option Int) : Option ToolInfo :=
  match tnum with
  | Option.none => Option.none
  | some t => (db.find? fun kv => decide (kv.1 = t)).map (·.2)

/-- `tool_db._to_int(v)` = `int(round(_to_float(v)))`. -/
def to_int_db (v : PyVal) : Option Int :=
  match to_float v with
  | some f => some (pyRound f)
  | Option.none => Option.none

/-- `_qty_mmps_to_mmmin(v)` = `int(round(_to_float(v) * 60.0))`. -/
def qty_mmps_to_mmmin (v : PyVal) : Option Int :=
  match to_float v with
  | some f => some (pyRound (f * ⟨60, 1⟩))
  | Option.none => Option.none

/-- The FreeCAD `Job` object: output-file property, `Tools.Group` tool
controllers and `Operations.Group` operations. -/
structure JobObj where
  PostProcessorOutputFile : Option String := Option.none
  Tools : List ToolCtlObj := []
  Operations : List OpObj := []

/-- `build_tool_db(job)`. -/
def build_tool_db (job : JobObj) : ToolDB :=
  job.Tools.foldl
    (fun db tc =>
      match pyInt tc.ToolNumber with
      | Option.none => db
      | some tn =>
        let label :=
          if tc.Label ≠ "" then tc.Label
          else if tc.Name ≠ "" then tc.Name
          else "Tool" ++ toString tn
        let diam :=
          match get_prop_tool tc with
          | some t => pyOr t.Diameter (pyOr t.ToolDiameter t.Diam)
          | Option.none => PyVal.none
        let info : ToolInfo :=
          { tnum := tn, label := label,
            diam_mm := to_float diam,
            rpm := to_int_db (pyOr tc.SpindleSpeed (pyOr tc.RPM tc.Spindle)),
            feed_xy_mmmin := qty_mmps_to_mmmin tc.HorizFeed,
            feed_z_mmmin := qty_mmps_to_mmmin tc.VertFeed }
        (tn, info) :: db)
    []

/-! ## `ops_3d.py` -/

/-- One iteration of the `emit_3d` command loop. -/
def emit_3d_step (acc : List String × MState × EmitS) (c : Cmd) :
    List String × MState × EmitS :=
  let (out, st, g) := acc
  let n := strUpper c.Name
  let p := c.Parameters
  if ["G0", "G00"].contains n then
    let r := append_changed g out p.X p.Y p.Z (some FeedV.fmax) "" (some st)
    let st := match p.X with | some v => { st with x := some v } | Option.none => st
    let st := match p.Y with | some v => { st with y := some v } | Option.none => st
    let st := match p.Z with | some v => { st with z := some v } | Option.none => st
    (r.1, st, r.2)
  else if ["G1", "G01"].contains n then
    let r := append_changed g out p.X p.Y p.Z (p.F.map FeedV.val) "" (some st)
    let st := match p.X with | some v => { st with x := some v } | Option.none => st
    let st := match p.Y with | some v => { st with y := some v } | Option.none => st
    let st := match p.Z with | some v => { st with z := some v } | Option.none => st
    (r.1, st, r.2)
  else if n = "CC" then (out ++ [CC_line p.X p.Y], st, g)
  else if n = "C" then
    let cw := match p.DR with | some q => ¬ q.beq 0 | Option.none => true
    (out ++ [C_line p.X p.Y cw ""], st, g)
  else acc

/-- `emit_3d(out, state, tooldb, heights, pth)` (tool db and heights are
accepted and unused, as in the source). -/
def emit_3d (g : EmitS) (out : List String) (st : MState) (_tooldb : ToolDB)
    (_heights : Q × Q) (pth : Option PathObj) : List String × MState × EmitS :=
  match pth with
  | Option.none => (out, st, g)
  | some p => p.Commands.foldl emit_3d_step (out, st, g)

/-- `emit_drilling(out, state, tooldb, heights, pth)`. -/
def emit_drilling (g : EmitS) (out : List String) (st : MState) (_tooldb : ToolDB)
    (_heights : Q × Q) (pth : Option PathObj) : List String × MState × EmitS :=
  emit_literal_with_drill_grouping g out pth st Option.none

/-! ## `fc_adapter.py` and `router.py` -/

/-- `unwrap_base(obj)`: follow the `Base` chain, at most 16 hops. -/
def unwrap_base : Nat → OpObj → OpObj
  | 0, o => o
  | n + 1, o =>
    match o.Base with
    | some b => unwrap_base n b
    | Option.none => o

/-- `get_heights(obj)`: `float(...)` of the resolved heights with the 5/50
defaults on failure. -/
def get_heights (op : OpObj) : Q × Q :=
  let base := unwrap_base 16 op
  (match pyFloat base.SafeHeight with | some q => q | Option.none => 5,
   match pyFloat base.ClearanceHeight with | some q => q | Option.none => 50)

/-- `scan_command_names(pth) & DRILL_CMDS ≠ ∅` (the empty name never enters
the set and is not a drill name anyway). -/
def scan_has_drill (pth : PathObj) : Bool :=
  pth.Commands.any fun c => ["G81", "G82", "G83", "G73"].contains (strUpper c.Name)

/-- `classify(pth)`; `export` calls it without a `base`, so the
`Path.Op.Profile` proxy branch is skipped. -/
def classify (pth : PathObj) : String :=
  if scan_has_drill pth then "drill"
  else if 500 < pth.Commands.length then "3d"
  else "contour"

/-! ## `tnc355_post.py` -/

def TOOLCHANGE_Z : Q := 150

/-- `os.path.basename`. -/
def basename (s : String) : String :=
  String.mk ((s.data.reverse.takeWhile fun c => ¬ c = '/').reverse)

/-- The base part of `os.path.splitext` (the leading-dot special case is not
modelled; no exercised path hits it). -/
def splitext_base (s : String) : String :=
  match s.data.reverse.findIdx? (fun c => decide (c = '.')) with
  | some i => String.mk ((s.data.reverse.drop (i + 1)).reverse)
  | Option.none => s

/-- `_program_name(job)`. -/
def program_name (job : JobObj) : String :=
  match job.PostProcessorOutputFile with
  | some f => if f ≠ "-" ∧ f ≠ "" then splitext_base (basename f) else "PROGRAM"
  | Option.none => "PROGRAM"

/-- `_tools_csv_path(job)` (its result only feeds `write_tool_csv`, a file
side effect outside the returned program text). -/
def tools_csv_path (job : JobObj) : Option String :=
  match job.PostProcessorOutputFile with
  | some f =>
    if f ≠ "-" ∧ f ≠ "" then some (splitext_base f ++ "_tools.csv") else Option.none
  | Option.none => Option.none

/-- Fallback of `_get_tool_number`: the dressup `Base`'s tool controller. -/
def get_tool_number_base (op : OpObj) : Option Int :=
  match op.Base with
  | some b =>
    match b.ToolController with
    | some tc => pyInt tc.ToolNumber
    | Option.none => Option.none
  | Option.none => Option.none

/-- `_get_tool_number(op)`. -/
def get_tool_number (op : OpObj) : Option Int :=
  match op.ToolController with
  | some tc =>
    (match pyInt tc.ToolNumber with
     | some n => some n
     | Option.none => get_tool_number_base op)
  | Option.none => get_tool_number_base op

/-- `f"{i} {l}"` for each line of `[""] + out`, 0-based. -/
def number_lines : Nat → List String → List String
  | _, [] => []
  | i, l :: ls => (toString i ++ " " ++ l) :: number_lines (i + 1) ls

/-- `"\n".join(f"{i} {l}" for i, l in enumerate([""] + out)) + "\n"`. -/
def render_output (out : List String) : String :=
  pyJoin "\n" (number_lines 0 ("" :: out)) ++ "\n"

/-- The per-operation body of the `export` loop (tool-change block, feed
lookup, classification and dispatch). -/
def export_loop_op (db : ToolDB) (acc : List String × MState × EmitS) (obj : OpObj) :
    List String × MState × EmitS :=
  let (out, st, g) := acc
  if ! obj.Active then acc
  else
    let base := unwrap_base 16 obj
    match (match obj.Path with | some p => some p | Option.none => base.Path) with
    | Option.none => acc
    | some pth =>
      let next :=
        match get_tool_number obj with
        | some nt =>
          if some nt ≠ st.tool_active then
            let tool := db_get db (some nt)
            let rpm : Option Int := match tool with | some t => t.rpm | Option.none => some 0
            let out := safe_z g out TOOLCHANGE_Z
            let out := stop_spindle out
            let out := coolant_off out
            let out := tool_change out
            let r :=
              match rpm with
              | some rv =>
                if rv ≠ 0 then tool_call g out nt (some rv) else tool_call g out nt Option.none
              | Option.none => tool_call g out nt Option.none
            let out := start_spindle r.1
            let out := coolant_on out
            (out, { st with tool_active := some nt }, r.2)
          else (out, st, g)
        | Option.none => (out, st, g)
      let out := next.1
      let st := next.2.1
      let g := next.2.2
      let tool := db_get db st.tool_active
      let fx : Option Q :=
        match tool with
        | some t => t.feed_xy_mmmin.map (fun i => (⟨i, 1⟩ : Q))
        | Option.none => Option.none
      let fz : Option Q :=
        match tool with
        | some t => t.feed_z_mmmin.map (fun i => (⟨i, 1⟩ : Q))
        | Option.none => Option.none
      let kind := classify pth
      if kind = "drill" then emit_drilling g out st db (get_heights obj) (some pth)
      else if kind = "3d" then emit_3d g out st db (get_heights obj) (some pth)
      else emit_contour_simple g out pth.Commands st fx fz Option.none

/-- `export(objectslist, filename, args)` over a job: fresh `State`, modal
reset (`reset_modals` touches only the feed modal!), tool-db construction,
the fatal no-tools check, and the operation loop between the `BEGIN`/`END`
lines; returns the numbered program text and the final module globals.
`write_tool_csv` is a file side effect with no bearing on the text. -/
def export_run (g0 : EmitS) (job : JobObj) : Except String (String × EmitS) :=
  let g := reset_modals g0
  let st : MState := {}
  let db := build_tool_db job
  if db.isEmpty then
    Except.error "FEHLER: Keine Werkzeuge gefunden."
  else
    let name := program_name job
    let out : List String := []
    let out := out ++ ["BEGIN PGM " ++ name ++ " MM"]
    let r := job.Operations.foldl (export_loop_op db) (out, st, g)
    let outF := r.1 ++ ["END PGM " ++ name ++ " MM"]
    Except.ok (render_output outF, r.2.2)

/-! ## Spec-side definition for the amended claim C2 -/

/-- The radius-mode table as the amended claim words it: if the compensation
flag normalizes to *enabled*, the mode is `R0`; otherwise (disabled, missing
or unrecognized flag) the side token resolves directly or through the
direction token, and any unrecognized combination yields `R0`. -/
def radius_mode_spec (use_comp side direction : PyVal) : String :=
  if normalize_bool use_comp then "R0"
  else
    let s := normalize_token side
    let d := normalize_token direction
    if tokIn s ["left", "l", "g41", "rl"] then "RL"
    else if tokIn s ["right", "r", "g42", "rr"] then "RR"
    else if tokIn s ["inside", "inner", "in"] then
      if tokIn d ["cw", "clockwise"] then "RR"
      else if tokIn d ["ccw", "counterclockwise", "anti-clockwise", "anticlockwise"] then "RL"
      else "R0"
    else if tokIn s ["outside", "outer", "out"] then
      if tokIn d ["cw", "clockwise"] then "RL"
      else if tokIn d ["ccw", "counterclockwise", "anti-clockwise", "anticlockwise"] then "RR"
      else "R0"
    else "R0"

/-! ## Concrete inputs used by the claim theorems -/

/-- Operation metadata for the C3 witness: side `"left"`, no other data. -/
def c3_op : OpObj :=
  OpObj.mk true PyVal.none (PyVal.str "left") PyVal.none Option.none
    PyVal.none PyVal.none PyVal.none PyVal.none PyVal.none Option.none Option.none

/-- First line of the C6 feed-modal scenario: feed 500 on a fresh modal. -/
def c6_run1 : String × EmitS :=
  L_line (some 1) Option.none Option.none (some (FeedV.val 500)) "" ⟨Option.none, false⟩

/-- Second line: feed 500 again (modally suppressed). -/
def c6_run2 : String × EmitS :=
  L_line (some 2) Option.none Option.none (some (FeedV.val 500)) "" c6_run1.2

/-- Third line: feed 300 (differs, so emitted). -/
def c6_run3 : String × EmitS :=
  L_line (some 3) Option.none Option.none (some (FeedV.val 300)) "" c6_run2.2

/-- The drill stream of C5: three `G81` sharing `(depth=-5, r=2, feed=80)` at
three points, then a fourth `G81` with `depth=-8`. -/
def c5_cmds : List Cmd :=
  [⟨"G81", { X := some 10, Y := some 10, Z := some (-5), R := some 2, F := some 80 }⟩,
   ⟨"G81", { X := some 20, Y := some 10, Z := some (-5), R := some 2, F := some 80 }⟩,
   ⟨"G81", { X := some 30, Y := some 10, Z := some (-5), R := some 2, F := some 80 }⟩,
   ⟨"G81", { X := some 40, Y := some 10, Z := some (-8), R := some 2, F := some 80 }⟩]

/-- The drilling emitter's output on `c5_cmds` (fresh state and globals). -/
def c5_out : List String :=
  (emit_literal_with_drill_grouping ⟨Option.none, false⟩ [] (some ⟨c5_cmds⟩) {}
    Option.none).1

/-- A `G81` drill command for the C4 witness. -/
def c4_cmd : Cmd :=
  ⟨"G81", { X := some 10, Y := some 10, Z := some (-5), R := some 2, F := some 80 }⟩

/-- Operation metadata for C8: side `"left"`, tool diameter 6 mm
(tool radius 3.0). -/
def c8_op : OpObj :=
  OpObj.mk true PyVal.none (PyVal.str "left") PyVal.none
    (some { Tool := some { Diameter := PyVal.num 6 } })
    PyVal.none PyVal.none PyVal.none PyVal.none PyVal.none Option.none Option.none

/-- C8 counterexample commands: lead-in rapid, plunge, an `X`/`Y`-bearing arc
directly before the entry move, then the entry move. -/
def c8_cmds : List Cmd :=
  [⟨"G0", { X := some 0, Y := some 0 }⟩,
   ⟨"G1", { Z := some (-1) }⟩,
   ⟨"G2", { X := some 5, Y := some 5, I := some 2, J := some 2 }⟩,
   ⟨"G1", { X := some 10, Y := some 10 }⟩]

/-- The contour emitter's output on `c8_cmds`. -/
def c8_out : List String :=
  (emit_contour_simple ⟨Option.none, false⟩ [] c8_cmds {} (some 600) (some 300)
    (some c8_op)).1

/-- C8 witness commands: the same operation without the lead-in arc. -/
def c8w_cmds : List Cmd :=
  [⟨"G0", { X := some 0, Y := some 0 }⟩,
   ⟨"G1", { Z := some (-1) }⟩,
   ⟨"G1", { X := some 10, Y := some 10 }⟩]

/-- Operation metadata for C9 (same shape as `c8_op`). -/
def c9_op : OpObj :=
  OpObj.mk true PyVal.none (PyVal.str "left") PyVal.none
    (some { Tool := some { Diameter := PyVal.num 6 } })
    PyVal.none PyVal.none PyVal.none PyVal.none PyVal.none Option.none Option.none

/-- C9 commands: valid lead-in and entry, then an arc while compensation is
active. -/
def c9_cmds : List Cmd :=
  [⟨"G0", { X := some 0, Y := some 0 }⟩,
   ⟨"G1", { Z := some (-1) }⟩,
   ⟨"G1", { X := some 10, Y := some 10 }⟩,
   ⟨"G2", { X := some 20, Y := some 10, I := some 15, J := some 10 }⟩]

/-- The contour emitter's output on `c9_cmds`. -/
def c9_out : List String :=
  (emit_contour_simple ⟨Option.none, false⟩ [] c9_cmds {} (some 600) (some 300)
    (some c9_op)).1

/-- An arc command for the C9 witness. -/
def c9w_cmd : Cmd := ⟨"G2", { X := some 20, Y := some 10, I := some 15, J := some 10 }⟩

/-- Tool controller of the C1 job: tool 1, 12000 rpm, 10 mm/s XY feed,
5 mm/s Z feed. -/
def c1_tool : ToolCtlObj :=
  { ToolNumber := PyVal.num 1, Label := "T1", SpindleSpeed := PyVal.num 12000,
    HorizFeed := PyVal.num 10, VertFeed := PyVal.num 5 }

/-- The single active operation of the C1 job: one linear move, classified
as contour. -/
def c1_op : OpObj :=
  OpObj.mk true PyVal.none PyVal.none PyVal.none
    (some { ToolNumber := PyVal.num 1 })
    PyVal.none PyVal.none PyVal.none PyVal.none PyVal.none
    (some ⟨[⟨"G1", { X := some 10, Y := some 10 }⟩]⟩) Option.none

/-- The C1 job: one tool, one operation that triggers a tool change. -/
def c1_job : JobObj := { Tools := [c1_tool], Operations := [c1_op] }

/-- The program text of an export run (`None` on the fatal no-tools path). -/
def c1_text_of (r : Except String (String × EmitS)) : Option String :=
  match r with
  | Except.ok p => some p.1
  | Except.error _ => Option.none

/-- First export run of the C1 job, from a fresh process state. -/
def c1_run1 : Except String (String × EmitS) := export_run ⟨Option.none, false⟩ c1_job

/-- The module globals left behind by the first run. -/
def c1_g1 : EmitS :=
  match c1_run1 with
  | Except.ok p => p.2
  | Except.error _ => ⟨Option.none, false⟩

/-- Second export run of the C1 job, in the same process. -/
def c1_run2 : Except String (String × EmitS) := export_run c1_g1 c1_job

/-! ## Statement support for claim C8 -/

/-- `l` is not a rounding-declaration line (`"RND R" ++ u` for any `u`). -/
def notRND (l : String) : Prop := ∀ u : String, ¬ l = "RND R" ++ u

/-- The feed argument a linear contour move passes down (`FMAX` for rapids,
the caller feed otherwise); mirrors the expression inside `contourStep`. -/
def lin_feed (fq : Option Q) (c : Cmd) : Option FeedV :=
  if strUpper c.Name ∈ ["G0", "G00"] then some FeedV.fmax else fq.map FeedV.val

/-- The contour loop state after processing the commands strictly before the
entry index. -/
def entry_prefix_state (g0 : EmitS) (out0 : List String) (cmds : List Cmd)
    (st0 : MState) (fxy fz : Option Q) (op : Option OpObj) (e : Nat) : CLoop :=
  contourLoop (contour_ctx op cmds fxy fz) 0 (cmds.take e) ⟨out0, st0, g0, false, false⟩

/-- That state after the entry command's own `Z` move (which precedes its
`X`/`Y` move inside the same iteration). -/
def entry_zmoved (g0 : EmitS) (out0 : List String) (cmds : List Cmd)
    (st0 : MState) (fxy fz : Option Q) (op : Option OpObj) (e : Nat) (ce : Cmd) : CLoop :=
  contour_z_move (entry_prefix_state g0 out0 cmds st0 fxy fz op e)
    ce.Parameters.Z (lin_feed fz ce)

end TNC

namespace TNC

/-! ## Claim C2: radius-mode precedence -/

/-- C2 counterexample: with compensation *explicitly disabled*
(`UseComp = False`) and side token `"left"`, the code derives `RL` (Left),
not the `None`/`R0` the claim's precedence demands for a disabled flag:
the side/direction resolution runs under `if not use_comp_bool:`. -/
theorem C2_counterexample :
    radius_mode_calc (PyVal.bool false) (PyVal.str "left") PyVal.none = "RL" ∧
    ¬ radius_mode_calc (PyVal.bool false) (PyVal.str "left") PyVal.none = "R0" := by
  decide

/-- C2 amended: the precedence holds with the flag's role inverted — a
compensation flag that normalizes to *enabled* yields `R0`; otherwise
(disabled, missing or unrecognized) the side token resolves directly to
left/right, or combines with the direction token as inside+cw→Right,
inside+ccw→Left, outside+cw→Left, outside+ccw→Right; any unrecognized
combination yields `R0`.  Stated as equality with the table
`radius_mode_spec` written from the amended words. -/
theorem C2_radius_mode_precedence :
    ∀ u s d : PyVal, radius_mode_calc u s d = radius_mode_spec u s d := by
  intro u s d
  unfold radius_mode_calc radius_mode_spec
  cases h : normalize_bool u <;> simp [h]

/-! ## Claim C3: missing lead-in aborts the contour -/

/-- C3: whenever the derived radius mode is `RL`/`RR` but the command list
has no lead-in (or no entry move exists), the contour emitter appends
exactly `(ERROR: RL/RR requires Lead-In)` then `(Contour aborted)` and
returns with state and globals untouched — no move lines are emitted. -/
theorem C3_no_leadin_error :
    ∀ (g : EmitS) (out : List String) (cmds : List Cmd) (st : MState)
      (fxy fz : Option Q) (op : Option OpObj),
      (radius_mode_of op = "RL" ∨ radius_mode_of op = "RR") →
      (lead_in_calc cmds = false ∨ entry_index_calc cmds = Option.none) →
      emit_contour_simple g out cmds st fxy fz op =
        (out ++ ["(ERROR: RL/RR requires Lead-In)", "(Contour aborted)"], st, g) := by
  intro g out cmds st fxy fz op h1 h2
  unfold emit_contour_simple
  rw [if_pos]
  refine ⟨h1, ?_⟩
  rcases h2 with h | h
  · exact Or.inl (by simp [h])
  · exact Or.inr h

/-- C3 witness: side `"left"` with an empty command list (no entry at all)
produces exactly the two diagnostic lines. -/
theorem C3_witness :
    emit_contour_simple ⟨Option.none, false⟩ [] [] {} Option.none Option.none (some c3_op) =
      (["(ERROR: RL/RR requires Lead-In)", "(Contour aborted)"], {}, ⟨Option.none, false⟩) := by
  have h := C3_no_leadin_error ⟨Option.none, false⟩ [] [] {} Option.none Option.none
    (some c3_op) (Or.inl (by decide)) (Or.inr (by decide))
  exact h.trans (by decide)

/-! ## Claim C6: feed word emission in the line builder -/

/-- C6: the line builder emits a feed word only for the `"FMAX"` sentinel
(always the fixed `F9999`, never modally suppressed, feed modal untouched)
or for a numeric feed that differs from the stored modal (word emitted and
modal updated; otherwise no word and no change); concretely, linear moves
with feeds 500, 500, 300 carry an `F` word only on the 1st and 3rd lines. -/
theorem C6_feed_word :
    (∀ x y z k g, L_build x y z (some FeedV.fmax) k g =
        ((L_build x y z Option.none k g).1 ++ ["F9999"], g)) ∧
    (∀ x y z k g q,
      (some (fmt_feed_num q) ≠ g.feedModal →
        L_build x y z (some (FeedV.val q)) k g =
          ((L_build x y z Option.none k g).1 ++ ["F" ++ toString (fmt_feed_num q)],
           { g with feedModal := some (fmt_feed_num q) })) ∧
      (some (fmt_feed_num q) = g.feedModal →
        L_build x y z (some (FeedV.val q)) k g =
          ((L_build x y z Option.none k g).1, g))) ∧
    (c6_run1.1 = "L  X+1.000  F500" ∧ c6_run2.1 = "L  X+2.000" ∧
     c6_run3.1 = "L  X+3.000  F300") := by
  refine ⟨fun x y z k g => rfl, fun x y z k g q => ⟨fun h => ?_, fun h => ?_⟩, by decide⟩
  · unfold L_build
    simp only [if_pos h]
  · unfold L_build
    simp only [if_neg (not_not_intro h)]

/-- C6 witness: the differing-feed case applied at feed 500 on a fresh
modal. -/
theorem C6_witness :
    L_build (some 1) Option.none Option.none (some (FeedV.val 500)) ""
      ⟨Option.none, false⟩ = (["L", "X+1.000", "F500"], ⟨some 500, false⟩) := by
  have h := (C6_feed_word.2.1 (some 1) Option.none Option.none "" ⟨Option.none, false⟩ 500).1
    (by decide)
  exact h.trans (by decide)

/-! ## Shared helper lemmas about the axis-change test -/

/-- `¬(b < a)` for the cross-multiplied comparisons. -/
theorem Q_blt_eq_false_of_ble {a b : Q} (h : a.ble b = true) : b.blt a = false := by
  unfold Q.ble at h
  unfold Q.blt
  exact decide_eq_false (Int.not_lt.mpr (of_decide_eq_true h))

/-- A present axis whose value is within `1e-6` of the known last value does
not count as changed. -/
theorem axisChangedOne_eq_false {v lastv : Option Q}
    (h : ∀ a, v = some a → ∃ w, lastv = some w ∧ (a - w).abs.ble TOL6 = true) :
    axisChangedOne v lastv = false := by
  cases v with
  | none => rfl
  | some a =>
    obtain ⟨w, hw, hle⟩ := h a rfl
    rw [hw]
    show TOL6.blt (a - w).abs = false
    exact Q_blt_eq_false_of_ble hle

/-- When the state knows at least one axis, `_append_changed` compares
against the state's coordinates (no recovery from the output). -/
theorem axis_changed_calc_of_not_all_none (x y z : Option Q) (st : MState)
    (out : List String)
    (h : ¬(st.x = Option.none ∧ st.y = Option.none ∧ st.z = Option.none)) :
    axis_changed_calc x y z (some st) out =
      (axisChangedOne x st.x || axisChangedOne y st.y || axisChangedOne z st.z) := by
  unfold axis_changed_calc state_coords
  cases hsx : st.x <;> cases hsy : st.y <;> cases hsz : st.z <;> simp_all

/-- When the state knows no axis and output exists, the baseline is parsed
out of the most recent output line. -/
theorem axis_changed_calc_fallback (x y z : Option Q) (st : MState)
    (out : List String) (l : String)
    (h1 : st.x = Option.none) (h2 : st.y = Option.none) (h3 : st.z = Option.none)
    (hl : out.getLast? = some l) :
    axis_changed_calc x y z (some st) out =
      (axisChangedOne x (extract_axes_from_line l).1 ||
       axisChangedOne y (extract_axes_from_line l).2.1 ||
       axisChangedOne z (extract_axes_from_line l).2.2) := by
  unfold axis_changed_calc
  simp only [state_coords]
  rw [h1, h2, h3, hl]

/-! ## Claim C7: modal suppression of unchanged axes -/

/-- C7: if every present axis value is within the `1e-6` tolerance of the
tracker's known value for that axis, `_append_changed` appends nothing and
leaves the globals untouched; and a present axis with no tracker value
counts as changed (line appended), provided some other axis keeps the
tracker from being fully unknown.  Feeding the same `(x, y, z)` twice in a
row, with the tracker updated after the first append, therefore emits no
second line (see the witness). -/
theorem C7_axis_modal_suppression :
    (∀ (g : EmitS) (out : List String) (x y z : Option Q) (f : Option FeedV)
       (k : String) (st : MState),
       (∀ a, x = some a → ∃ w, st.x = some w ∧ (a - w).abs.ble TOL6 = true) →
       (∀ a, y = some a → ∃ w, st.y = some w ∧ (a - w).abs.ble TOL6 = true) →
       (∀ a, z = some a → ∃ w, st.z = some w ∧ (a - w).abs.ble TOL6 = true) →
       append_changed g out x y z f k (some st) = (out, g)) ∧
    (∀ (g : EmitS) (out : List String) (y z : Option Q) (f : Option FeedV)
       (k : String) (st : MState) (v : Q),
       st.x = Option.none → (st.y.isSome ∨ st.z.isSome) →
       append_changed g out (some v) y z f k (some st) =
         (out ++ [(L_line (some v) y z f k g).1], (L_line (some v) y z f k g).2)) := by
  constructor
  · intro g out x y z f k st hx hy hz
    have hc : axis_changed_calc x y z (some st) out = false := by
      by_cases hall : st.x = Option.none ∧ st.y = Option.none ∧ st.z = Option.none
      · have hx0 : x = Option.none := by
          cases hxv : x with
          | none => rfl
          | some a => obtain ⟨w, hw, _⟩ := hx a hxv; rw [hall.1] at hw; cases hw
        have hy0 : y = Option.none := by
          cases hyv : y with
          | none => rfl
          | some a => obtain ⟨w, hw, _⟩ := hy a hyv; rw [hall.2.1] at hw; cases hw
        have hz0 : z = Option.none := by
          cases hzv : z with
          | none => rfl
          | some a => obtain ⟨w, hw, _⟩ := hz a hzv; rw [hall.2.2] at hw; cases hw
        subst hx0 hy0 hz0
        rfl
      · rw [axis_changed_calc_of_not_all_none x y z st out hall,
          axisChangedOne_eq_false hx, axisChangedOne_eq_false hy,
          axisChangedOne_eq_false hz]
        rfl
    unfold append_changed
    simp [hc]
  · intro g out y z f k st v hx hyz
    have hc : axis_changed_calc (some v) y z (some st) out = true := by
      have hnotall : ¬(st.x = Option.none ∧ st.y = Option.none ∧ st.z = Option.none) := by
        intro hall
        rcases hyz with h | h
        · rw [hall.2.1] at h; cases h
        · rw [hall.2.2] at h; cases h
      rw [axis_changed_calc_of_not_all_none _ _ _ _ _ hnotall, hx]
      rfl
    unfold append_changed
    simp [hc]

/-- C7 witness: the second of two identical rapid moves to `(10, 10, 5)`
(tracker updated after the first append) is fully suppressed. -/
theorem C7_witness :
    append_changed ⟨Option.none, false⟩ ["L  X+10.000  Y+10.000  Z+5.000  F9999"]
      (some 10) (some 10) (some 5) (some FeedV.fmax) ""
      (some { x := some 10, y := some 10, z := some 5 }) =
      (["L  X+10.000  Y+10.000  Z+5.000  F9999"], ⟨Option.none, false⟩) := by
  exact C7_axis_modal_suppression.1 _ _ _ _ _ _ _ _
    (fun a ha => by cases ha; exact ⟨10, rfl, by decide⟩)
    (fun a ha => by cases ha; exact ⟨10, rfl, by decide⟩)
    (fun a ha => by cases ha; exact ⟨5, rfl, by decide⟩)

/-! ## Claim C10: baseline recovery from the last output line -/

/-- C10: when the state knows no axis at all and output exists, the
comparison baseline is recovered by parsing `X`/`Y`/`Z` words out of the
most recently appended line (only a line whose stripped text starts with
`L` yields values — that guard lives inside `extract_axes_from_line`);
consequently a move identical (within tolerance) to the parsed values of
the previous `L` line is suppressed even though the tracker is
uninitialized. -/
theorem C10_uninitialized_tracker_fallback :
    (∀ (x y z : Option Q) (st : MState) (out : List String) (l : String),
       st.x = Option.none → st.y = Option.none → st.z = Option.none →
       out.getLast? = some l →
       axis_changed_calc x y z (some st) out =
         (axisChangedOne x (extract_axes_from_line l).1 ||
          axisChangedOne y (extract_axes_from_line l).2.1 ||
          axisChangedOne z (extract_axes_from_line l).2.2)) ∧
    (∀ (g : EmitS) (out : List String) (x y z : Option Q) (f : Option FeedV)
       (k : String) (st : MState) (l : String),
       st.x = Option.none → st.y = Option.none → st.z = Option.none →
       out.getLast? = some l →
       (∀ a, x = some a →
         ∃ w, (extract_axes_from_line l).1 = some w ∧ (a - w).abs.ble TOL6 = true) →
       (∀ a, y = some a →
         ∃ w, (extract_axes_from_line l).2.1 = some w ∧ (a - w).abs.ble TOL6 = true) →
       (∀ a, z = some a →
         ∃ w, (extract_axes_from_line l).2.2 = some w ∧ (a - w).abs.ble TOL6 = true) →
       append_changed g out x y z f k (some st) = (out, g)) := by
  refine ⟨axis_changed_calc_fallback, ?_⟩
  intro g out x y z f k st l h1 h2 h3 hl hx hy hz
  have hc : axis_changed_calc x y z (some st) out = false := by
    rw [axis_changed_calc_fallback x y z st out l h1 h2 h3 hl,
      axisChangedOne_eq_false hx, axisChangedOne_eq_false hy,
      axisChangedOne_eq_false hz]
    rfl
  unfold append_changed
  simp [hc]

/-- C10 witness: with an uninitialized tracker, a move to `(10, 10, 5)` right
after the line `L  X+10.000  Y+10.000  Z+5.000  F9999` is suppressed. -/
theorem C10_witness :
    append_changed ⟨Option.none, false⟩ ["L  X+10.000  Y+10.000  Z+5.000  F9999"]
      (some 10) (some 10) (some 5) (some FeedV.fmax) "" (some {}) =
      (["L  X+10.000  Y+10.000  Z+5.000  F9999"], ⟨Option.none, false⟩) := by
  exact C10_uninitialized_tracker_fallback.2 _ _ _ _ _ _ _ _ _ rfl rfl rfl rfl
    (fun a ha => by cases ha; exact ⟨⟨10000, 1000⟩, by decide, by decide⟩)
    (fun a ha => by cases ha; exact ⟨⟨10000, 1000⟩, by decide, by decide⟩)
    (fun a ha => by cases ha; exact ⟨⟨5000, 1000⟩, by decide, by decide⟩)

/-! ## Claim C4: drill-cycle grouping discipline -/

/-- C4: a drill-cycle-start command (`G81`/`G82`/`G83`) computes its grouping
key from (kind, depth, retract plane, feed, dwell, peck) with the numeric
fields rounded to 6 decimals (`dg_key`); when no group is active or the key
differs from the active group's key, the current group is flushed first and
a fresh group with the new key begins holding just this command's `(x, y)`;
when the key matches the active group, nothing is flushed and the point is
appended; and at end of stream the (possibly still-active) group is flushed
unconditionally — the emitter's result is the final flush applied to the
folded loop state. -/
theorem C4_drill_grouping :
    (∀ (peck : Option Q) (ls : DLoop) (c : Cmd),
      (strUpper c.Name = "G81" ∨ strUpper c.Name = "G82" ∨ strUpper c.Name = "G83") →
      ((drill_step peck ls c).dg.active = true ∧
       (drill_step peck ls c).dg.key = some (dg_key (strUpper c.Name)
         (c.Parameters.Z.getD (-5)) (c.Parameters.R.getD 2) (c.Parameters.F.getD 80)
         (if strUpper c.Name = "G82" then c.Parameters.P.getD 0 else (0 : Q)) peck) ∧
       (¬ (ls.dg.active = true ∧ ls.dg.key = some (dg_key (strUpper c.Name)
            (c.Parameters.Z.getD (-5)) (c.Parameters.R.getD 2) (c.Parameters.F.getD 80)
            (if strUpper c.Name = "G82" then c.Parameters.P.getD 0 else (0 : Q)) peck)) →
          (drill_step peck ls c).out = (flush_drill_group ls.g ls.out
            (if peck.isSome then { ls.dg with peck := peck } else ls.dg)).1 ∧
          (drill_step peck ls c).dg.pts =
            [(match c.Parameters.X with | some v => some v | Option.none => ls.st.X,
              match c.Parameters.Y with | some v => some v | Option.none => ls.st.Y)]) ∧
       ((ls.dg.active = true ∧ ls.dg.key = some (dg_key (strUpper c.Name)
            (c.Parameters.Z.getD (-5)) (c.Parameters.R.getD 2) (c.Parameters.F.getD 80)
            (if strUpper c.Name = "G82" then c.Parameters.P.getD 0 else (0 : Q)) peck)) →
          (drill_step peck ls c).out = ls.out ∧
          (drill_step peck ls c).dg.pts = ls.dg.pts ++
            [(match c.Parameters.X with | some v => some v | Option.none => ls.st.X,
              match c.Parameters.Y with | some v => some v | Option.none => ls.st.Y)]))) ∧
    (∀ (g : EmitS) (out : List String) (p : PathObj) (st : MState) (peck : Option Q),
      emit_literal_with_drill_grouping g out (some p) st peck =
        (let ls := p.Commands.foldl (drill_step peck) ⟨out, normalize_state st, {}, g⟩
         let dg := if peck.isSome then { ls.dg with peck := peck } else ls.dg
         let r := flush_drill_group ls.g ls.out dg
         (r.1, ls.st, r.2.2))) := by
  constructor
  · intro peck ls c h
    rcases h with h | h | h
    · simp [drill_step, h]
      by_cases hc : ls.dg.active = true ∧ ls.dg.key = some (dg_key "G81"
        (c.Parameters.Z.getD (-5)) (c.Parameters.R.getD 2) (c.Parameters.F.getD 80) 0 peck)
      · have hneg : ¬ (ls.dg.active = false ∨ ¬ ls.dg.key = some (dg_key "G81"
            (c.Parameters.Z.getD (-5)) (c.Parameters.R.getD 2) (c.Parameters.F.getD 80) 0 peck)) := by
          intro hor
          rcases hor with h1 | h1
          · rw [hc.1] at h1; cases h1
          · exact h1 hc.2
        simp only [if_neg hneg]
        simp [hc]
      · have hpos : (ls.dg.active = false ∨ ¬ ls.dg.key = some (dg_key "G81"
            (c.Parameters.Z.getD (-5)) (c.Parameters.R.getD 2) (c.Parameters.F.getD 80) 0 peck)) := by
          cases hb : ls.dg.active with
          | false => exact Or.inl rfl
          | true => exact Or.inr (fun hk => hc ⟨hb, hk⟩)
        simp only [if_pos hpos]
        simp [hc]
        exact fun h1 h2 => absurd ⟨h1, h2⟩ hc
    · simp [drill_step, h]
      by_cases hc : ls.dg.active = true ∧ ls.dg.key = some (dg_key "G82"
        (c.Parameters.Z.getD (-5)) (c.Parameters.R.getD 2) (c.Parameters.F.getD 80)
        (c.Parameters.P.getD 0) peck)
      · have hneg : ¬ (ls.dg.active = false ∨ ¬ ls.dg.key = some (dg_key "G82"
            (c.Parameters.Z.getD (-5)) (c.Parameters.R.getD 2) (c.Parameters.F.getD 80)
            (c.Parameters.P.getD 0) peck)) := by
          intro hor
          rcases hor with h1 | h1
          · rw [hc.1] at h1; cases h1
          · exact h1 hc.2
        simp only [if_neg hneg]
        simp [hc]
      · have hpos : (ls.dg.active = false ∨ ¬ ls.dg.key = some (dg_key "G82"
            (c.Parameters.Z.getD (-5)) (c.Parameters.R.getD 2) (c.Parameters.F.getD 80)
            (c.Parameters.P.getD 0) peck)) := by
          cases hb : ls.dg.active with
          | false => exact Or.inl rfl
          | true => exact Or.inr (fun hk => hc ⟨hb, hk⟩)
        simp only [if_pos hpos]
        simp [hc]
        exact fun h1 h2 => absurd ⟨h1, h2⟩ hc
    · simp [drill_step, h]
      by_cases hc : ls.dg.active = true ∧ ls.dg.key = some (dg_key "G83"
        (c.Parameters.Z.getD (-5)) (c.Parameters.R.getD 2) (c.Parameters.F.getD 80) 0 peck)
      · have hneg : ¬ (ls.dg.active = false ∨ ¬ ls.dg.key = some (dg_key "G83"
            (c.Parameters.Z.getD (-5)) (c.Parameters.R.getD 2) (c.Parameters.F.getD 80) 0 peck)) := by
          intro hor
          rcases hor with h1 | h1
          · rw [hc.1] at h1; cases h1
          · exact h1 hc.2
        simp only [if_neg hneg]
        simp [hc]
      · have hpos : (ls.dg.active = false ∨ ¬ ls.dg.key = some (dg_key "G83"
            (c.Parameters.Z.getD (-5)) (c.Parameters.R.getD 2) (c.Parameters.F.getD 80) 0 peck)) := by
          cases hb : ls.dg.active with
          | false => exact Or.inl rfl
          | true => exact Or.inr (fun hk => hc ⟨hb, hk⟩)
        simp only [if_pos hpos]
        simp [hc]
        exact fun h1 h2 => absurd ⟨h1, h2⟩ hc
  · intro g out p st peck
    rfl

/-- C4 witness: a `G81` with depth −5, retract 2, feed 80 on an empty loop
state starts a group keyed by those values. -/
theorem C4_witness :
    (drill_step Option.none ⟨[], {}, {}, ⟨Option.none, false⟩⟩ c4_cmd).dg.key =
      some (dg_key "G81" (-5) 2 80 0 Option.none) := by
  have hh := C4_drill_grouping.1 Option.none ⟨[], {}, {}, ⟨Option.none, false⟩⟩ c4_cmd
    (Or.inl (by decide))
  exact hh.2.1.trans (by decide)

/-! ## Claim C5: drill grouping on the concrete three-plus-one stream -/

/-- C5 counterexample: on the claim's own input (three `G81` sharing
`(depth=-5, r=2, feed=80)` and a fourth with `depth=-8`), the two
cycle-definition blocks consist of 12 `CYCL DEF` lines in total, not the
10 that two "5-line" blocks would give: each block is the six lines
`CYCL DEF 1.0` … `CYCL DEF 1.5`. -/
theorem C5_counterexample :
    ((c5_out.filter fun l => lstripStartsWith l "CYCL DEF").length = 12) ∧
    ¬ ((c5_out.filter fun l => lstripStartsWith l "CYCL DEF").length = 10) := by
  decide

/-- C5 amended: the stream produces exactly one **six**-line
cycle-definition block followed by three (rapid positioning + `CYCL CALL`)
pairs, and the fourth `G81` with depth −8 starts a new group with a new
six-line definition block (followed by its own pair). -/
theorem C5_grouped_output :
    c5_out =
      ["CYCL DEF 1.0 TIEFBOHREN",
       "CYCL DEF 1.1 ABST -2.000",
       "CYCL DEF 1.2 TIEFE -5.000",
       "CYCL DEF 1.3 ZUSTLG -5.000",
       "CYCL DEF 1.4 VZEIT 0,000",
       "CYCL DEF 1.5 F 4800",
       "L  X+10.000  Y+10.000  F9999",
       "CYCL CALL",
       "L  X+20.000  Y+10.000  F9999",
       "CYCL CALL",
       "L  X+30.000  Y+10.000  F9999",
       "CYCL CALL",
       "CYCL DEF 1.0 TIEFBOHREN",
       "CYCL DEF 1.1 ABST -2.000",
       "CYCL DEF 1.2 TIEFE -8.000",
       "CYCL DEF 1.3 ZUSTLG -8.000",
       "CYCL DEF 1.4 VZEIT 0,000",
       "CYCL DEF 1.5 F 4800",
       "L  X+40.000  Y+10.000  F9999",
       "CYCL CALL"] := by
  decide

/-! ## Claim C9: compensation words on arc lines -/

/-- C9 counterexample: with a valid lead-in, derived mode `RL` and an arc
after the entry move (compensation "active"), the emitted circular line is
the bare `C  X+20.000  Y+10.000  DR-`: it does not carry the `RL` that the
linear moves of the same phase carry (the last conjunct shows the line
differs from what `_C` would emit with the compensation word). -/
theorem C9_counterexample :
    c9_out = ["L  X+0.000  Y+0.000  R0  F9999", "L  Z-1.000  F300", "RND R3.5",
      "L  X+10.000  Y+10.000  RL  F600", "CC  X+15.000  Y+10.000",
      "C  X+20.000  Y+10.000  DR-"] ∧
    c9_out.getLast? = some (C_line (some 20) (some 10) true "") ∧
    ¬ c9_out.getLast? = some (C_line (some 20) (some 10) true "RL") := by
  decide

/-- C9 amended: every arc command other than the replaced lead-in arc is
emitted (after the optional `Z` move and circle-centre line) as a circular
line built with an **empty** compensation word, in every phase. -/
theorem C9_arcs_carry_no_compensation :
    ∀ (ctx : CCtx) (ls : CLoop) (i : Nat) (c : Cmd),
      isArcName (strUpper c.Name) = true →
      ¬ ctx.replaceIdx = some i →
      (contourStep ctx ls i c).out =
        (contour_z_move ls c.Parameters.Z (ctx.feed_z.map FeedV.val)).out ++
        (if c.Parameters.I.isSome ∧ c.Parameters.J.isSome
         then [CC_line c.Parameters.I c.Parameters.J] else []) ++
        [C_line c.Parameters.X c.Parameters.Y
          (["G2", "G02"].contains (strUpper c.Name)) ""] := by
  intro ctx ls i c harc hrep
  have hlin : isLinName (strUpper c.Name) = false := by
    simp [isArcName] at harc
    rcases harc with h | h | h | h <;> rw [h] <;> decide
  simp only [contourStep, hlin, harc, hrep]
  simp only [Bool.false_eq_true, if_false]
  by_cases hij : c.Parameters.I.isSome ∧ c.Parameters.J.isSome
  · simp [hij, List.append_assoc]
  · simp [hij]

/-- C9 witness for the amended statement: a free-standing `G2` arc with a
centre emits the circle-centre line and an uncompensated circular line. -/
theorem C9_witness :
    (contourStep ⟨"R0", Option.none, Option.none, 0, Option.none, Option.none⟩
      ⟨[], {}, ⟨Option.none, false⟩, false, false⟩ 0 c9w_cmd).out =
      ["CC  X+15.000  Y+10.000", "C  X+20.000  Y+10.000  DR-"] := by
  have h := C9_arcs_carry_no_compensation
    ⟨"R0", Option.none, Option.none, 0, Option.none, Option.none⟩
    ⟨[], {}, ⟨Option.none, false⟩, false, false⟩ 0 c9w_cmd (by decide) (by decide)
  exact h.trans (by decide)

/-! ## Claim C1: export is not two-run deterministic -/

/-- C1 (code bug): exporting the same job twice in one process does not give
byte-identical text.  `reset_modals` resets only the feed modal, while the
`_TOOL_INITIALIZED` flag survives the first run, so the second run emits an
extra `L  Z+150.000  FMAX` safe-retract line before the tool change.  Both
runs succeed (second conjunct) yet their texts differ (first conjunct). -/
theorem C1_export_not_idempotent :
    ¬ c1_text_of c1_run1 = c1_text_of c1_run2 ∧ ¬ c1_text_of c1_run1 = Option.none := by
  decide

end TNC

namespace TNC

/-! ## Claim C8: rounding declaration before the entry move -/

/-- Every token list built by the linear line builder starts with the token `L`. -/
theorem L_build_head (x y z : Option Q) (f : Option FeedV) (k : String) (g : EmitS) :
    ∃ rest, (L_build x y z f k g).1 = "L" :: rest := by
  cases f with
  | none =>
    unfold L_build
    repeat' split
    all_goals first
      | exact ⟨_, rfl⟩
      | (exfalso; simp_all)
  | some fv =>
    cases fv with
    | fmax =>
      unfold L_build
      repeat' split
      all_goals first
        | exact ⟨_, rfl⟩
        | (exfalso; simp_all)
    | val q =>
      unfold L_build
      by_cases hf : some (fmt_feed_num q) ≠ g.feedModal
      · simp only [if_pos hf]
        repeat' split
        all_goals first
          | exact ⟨_, rfl⟩
          | (exfalso; simp_all)
      · simp only [if_neg hf]
        repeat' split
        all_goals first
          | exact ⟨_, rfl⟩
          | (exfalso; simp_all)

/-- Joining a token list headed by `"L"` yields a string whose first character is `L`. -/
theorem pyJoin_L_data (sep : String) (parts : List String) :
    ∃ t, (pyJoin sep ("L" :: parts)).data = 'L' :: t := by
  cases parts with
  | nil => exact ⟨[], rfl⟩
  | cons b bs => exact ⟨sep.data ++ (pyJoin sep (b :: bs)).data, rfl⟩

/-- Strings whose first characters differ are different strings. -/
theorem ne_of_head {s t : String} {c1 c2 : Char} {l1 l2 : List Char}
    (h1 : s.data = c1 :: l1) (h2 : t.data = c2 :: l2) (hne : ¬ c1 = c2) : ¬ s = t := by
  intro h
  rw [h, h2] at h1
  injection h1 with hh _
  exact hne hh.symm

/-- A built linear move line is never a rounding declaration. -/
theorem notRND_L_line (x y z : Option Q) (f : Option FeedV) (k : String) (g : EmitS) :
    notRND (L_line x y z f k g).1 := by
  intro u
  obtain ⟨rest, hr⟩ := L_build_head x y z f k g
  have h1 : (L_line x y z f k g).1 = pyJoin "  " (L_build x y z f k g).1 := rfl
  rw [h1, hr]
  obtain ⟨t, ht⟩ := pyJoin_L_data "  " rest
  exact ne_of_head ht rfl (by decide)

/-- An arc-center line is never a rounding declaration. -/
theorem notRND_CC (cx cy : Option Q) : notRND (CC_line cx cy) := by
  intro u
  unfold CC_line
  exact ne_of_head rfl rfl (by decide)

/-- An arc move line is never a rounding declaration. -/
theorem notRND_C (x y : Option Q) (cw : Bool) (k : String) : notRND (C_line x y cw k) := by
  intro u
  unfold C_line
  by_cases hk : k ≠ ""
  · simp only [if_pos hk]
    exact ne_of_head rfl rfl (by decide)
  · simp only [if_neg hk]
    exact ne_of_head rfl rfl (by decide)

/-- The axis-change append either leaves the output unchanged or appends the one built `L` line. -/
theorem append_changed_out (g : EmitS) (out : List String) (x y z : Option Q)
    (f : Option FeedV) (k : String) (st : Option MState) :
    (append_changed g out x y z f k st).1 = out ∨
    (append_changed g out x y z f k st).1 = out ++ [(L_line x y z f k g).1] := by
  unfold append_changed
  split
  · right; rfl
  · left; rfl

/-- The `Z`-move sub-step appends at most one line, never a rounding declaration, and preserves both loop flags. -/
theorem contour_z_move_shape (ls : CLoop) (zv : Option Q) (f : Option FeedV) :
    ((contour_z_move ls zv f).out = ls.out ∨
      ∃ lz, (contour_z_move ls zv f).out = ls.out ++ [lz] ∧ notRND lz) ∧
    (contour_z_move ls zv f).rnd_emitted = ls.rnd_emitted ∧
    (contour_z_move ls zv f).leadin_arc_replaced = ls.leadin_arc_replaced := by
  cases zv with
  | none => exact ⟨Or.inl rfl, rfl, rfl⟩
  | some z =>
    by_cases hz : (match ls.st.z with
        | Option.none => true
        | some sz => TOL9.blt (sz - z).abs) = true
    · have hstep : contour_z_move ls (some z) f =
        (let r := append_changed ls.g ls.out Option.none Option.none (some z) f "" (some ls.st)
         { ls with out := r.1, g := r.2, st := { ls.st with z := some z } }) := by
        simp only [contour_z_move, if_pos hz]
      rw [hstep]
      rcases append_changed_out ls.g ls.out Option.none Option.none (some z) f "" (some ls.st)
        with h | h
      · exact ⟨Or.inl h, rfl, rfl⟩
      · exact ⟨Or.inr ⟨_, h, notRND_L_line _ _ _ _ _ _⟩, rfl, rfl⟩
    · have hstep : contour_z_move ls (some z) f = ls := by
        simp only [contour_z_move, if_neg hz]
      rw [hstep]
      exact ⟨Or.inl rfl, rfl, rfl⟩

/-- A non-entry, non-replacement loop iteration appends only non-`RND` lines and preserves both loop flags. -/
theorem contourStep_plain (ctx : CCtx) (ls : CLoop) (i : Nat) (c : Cmd)
    (hi : ∀ e, ctx.entryIndex = some e → ¬ i = e)
    (hrep : ctx.replaceIdx = Option.none) :
    ∃ d, (contourStep ctx ls i c).out = ls.out ++ d ∧ (∀ l ∈ d, notRND l) ∧
      (contourStep ctx ls i c).rnd_emitted = ls.rnd_emitted ∧
      (contourStep ctx ls i c).leadin_arc_replaced = ls.leadin_arc_replaced := by
  have hpe : (match ctx.entryIndex with
      | some e => decide (i = e)
      | Option.none => false) = false := by
    cases he : ctx.entryIndex with
    | none => rfl
    | some e => exact decide_eq_false (hi e he)
  by_cases hl : isLinName (strUpper c.Name) = true
  · by_cases hxy : c.Parameters.X.isSome = true ∨ c.Parameters.Y.isSome = true
    · have hout : (contourStep ctx ls i c).out =
          (append_changed
            (contour_z_move ls c.Parameters.Z
              (if strUpper c.Name ∈ ["G0", "G00"] then some FeedV.fmax
               else ctx.feed_z.map FeedV.val)).g
            (contour_z_move ls c.Parameters.Z
              (if strUpper c.Name ∈ ["G0", "G00"] then some FeedV.fmax
               else ctx.feed_z.map FeedV.val)).out
            c.Parameters.X c.Parameters.Y Option.none
            (if strUpper c.Name ∈ ["G0", "G00"] then some FeedV.fmax
             else ctx.feed_xy.map FeedV.val)
            (if (match ctx.entryIndex with
                 | some e => decide (i < e)
                 | Option.none => false) = true then "R0" else "")
            (some (contour_z_move ls c.Parameters.Z
              (if strUpper c.Name ∈ ["G0", "G00"] then some FeedV.fmax
               else ctx.feed_z.map FeedV.val)).st)).1 := by
        simp [contourStep, hl, hxy, hpe]
      have hrnd : (contourStep ctx ls i c).rnd_emitted =
          (contour_z_move ls c.Parameters.Z
            (if strUpper c.Name ∈ ["G0", "G00"] then some FeedV.fmax
             else ctx.feed_z.map FeedV.val)).rnd_emitted := by
        simp [contourStep, hl, hxy, hpe]
      have hlar : (contourStep ctx ls i c).leadin_arc_replaced =
          (contour_z_move ls c.Parameters.Z
            (if strUpper c.Name ∈ ["G0", "G00"] then some FeedV.fmax
             else ctx.feed_z.map FeedV.val)).leadin_arc_replaced := by
        simp [contourStep, hl, hxy, hpe]
      obtain ⟨hzo, hzr, hzl⟩ := contour_z_move_shape ls c.Parameters.Z
        (if strUpper c.Name ∈ ["G0", "G00"] then some FeedV.fmax
         else ctx.feed_z.map FeedV.val)
      rcases append_changed_out
          (contour_z_move ls c.Parameters.Z
            (if strUpper c.Name ∈ ["G0", "G00"] then some FeedV.fmax
             else ctx.feed_z.map FeedV.val)).g
          (contour_z_move ls c.Parameters.Z
            (if strUpper c.Name ∈ ["G0", "G00"] then some FeedV.fmax
             else ctx.feed_z.map FeedV.val)).out
          c.Parameters.X c.Parameters.Y Option.none
          (if strUpper c.Name ∈ ["G0", "G00"] then some FeedV.fmax
           else ctx.feed_xy.map FeedV.val)
          (if (match ctx.entryIndex with
               | some e => decide (i < e)
               | Option.none => false) = true then "R0" else "")
          (some (contour_z_move ls c.Parameters.Z
            (if strUpper c.Name ∈ ["G0", "G00"] then some FeedV.fmax
             else ctx.feed_z.map FeedV.val)).st) with ha | ha
      · rcases hzo with hz0 | ⟨lz, hz1, hnz⟩
        · refine ⟨[], ?_, by simp, hrnd.trans hzr, hlar.trans hzl⟩
          rw [List.append_nil, hout, ha, hz0]
        · refine ⟨[lz], ?_, ?_, hrnd.trans hzr, hlar.trans hzl⟩
          · rw [hout, ha, hz1]
          · intro l hlz
            rcases List.mem_singleton.mp hlz with rfl
            exact hnz
      · rcases hzo with hz0 | ⟨lz, hz1, hnz⟩
        · refine ⟨[(L_line c.Parameters.X c.Parameters.Y Option.none
              (if strUpper c.Name ∈ ["G0", "G00"] then some FeedV.fmax
               else ctx.feed_xy.map FeedV.val)
              (if (match ctx.entryIndex with
                   | some e => decide (i < e)
                   | Option.none => false) = true then "R0" else "")
              (contour_z_move ls c.Parameters.Z
                (if strUpper c.Name ∈ ["G0", "G00"] then some FeedV.fmax
                 else ctx.feed_z.map FeedV.val)).g).1], ?_, ?_,
            hrnd.trans hzr, hlar.trans hzl⟩
          · rw [hout, ha, hz0]
          · intro l hlz
            rcases List.mem_singleton.mp hlz with rfl
            exact notRND_L_line _ _ _ _ _ _
        · refine ⟨[lz, (L_line c.Parameters.X c.Parameters.Y Option.none
              (if strUpper c.Name ∈ ["G0", "G00"] then some FeedV.fmax
               else ctx.feed_xy.map FeedV.val)
              (if (match ctx.entryIndex with
                   | some e => decide (i < e)
                   | Option.none => false) = true then "R0" else "")
              (contour_z_move ls c.Parameters.Z
                (if strUpper c.Name ∈ ["G0", "G00"] then some FeedV.fmax
                 else ctx.feed_z.map FeedV.val)).g).1], ?_, ?_,
            hrnd.trans hzr, hlar.trans hzl⟩
          · rw [hout, ha, hz1, List.append_assoc]
            rfl
          · intro l hlz
            rcases List.mem_cons.mp hlz with rfl | hlz2
            · exact hnz
            · rcases List.mem_singleton.mp hlz2 with rfl
              exact notRND_L_line _ _ _ _ _ _
    · have hout : (contourStep ctx ls i c).out =
          (contour_z_move ls c.Parameters.Z
            (if strUpper c.Name ∈ ["G0", "G00"] then some FeedV.fmax
             else ctx.feed_z.map FeedV.val)).out := by
        simp [contourStep, hl, hxy, hpe]
      have hrnd : (contourStep ctx ls i c).rnd_emitted =
          (contour_z_move ls c.Parameters.Z
            (if strUpper c.Name ∈ ["G0", "G00"] then some FeedV.fmax
             else ctx.feed_z.map FeedV.val)).rnd_emitted := by
        simp [contourStep, hl, hxy, hpe]
      have hlar : (contourStep ctx ls i c).leadin_arc_replaced =
          (contour_z_move ls c.Parameters.Z
            (if strUpper c.Name ∈ ["G0", "G00"] then some FeedV.fmax
             else ctx.feed_z.map FeedV.val)).leadin_arc_replaced := by
        simp [contourStep, hl, hxy, hpe]
      obtain ⟨hzo, hzr, hzl⟩ := contour_z_move_shape ls c.Parameters.Z
        (if strUpper c.Name ∈ ["G0", "G00"] then some FeedV.fmax
         else ctx.feed_z.map FeedV.val)
      rcases hzo with hz0 | ⟨lz, hz1, hnz⟩
      · refine ⟨[], ?_, by simp, hrnd.trans hzr, hlar.trans hzl⟩
        rw [List.append_nil, hout, hz0]
      · refine ⟨[lz], ?_, ?_, hrnd.trans hzr, hlar.trans hzl⟩
        · rw [hout, hz1]
        · intro l hlz
          rcases List.mem_singleton.mp hlz with rfl
          exact hnz
  · by_cases harc : isArcName (strUpper c.Name) = true
    · have hout : (contourStep ctx ls i c).out =
          (if c.Parameters.I.isSome = true ∧ c.Parameters.J.isSome = true
           then (contour_z_move ls c.Parameters.Z (ctx.feed_z.map FeedV.val)).out ++
             [CC_line c.Parameters.I c.Parameters.J]
           else (contour_z_move ls c.Parameters.Z (ctx.feed_z.map FeedV.val)).out) ++
          [C_line c.Parameters.X c.Parameters.Y
            (["G2", "G02"].contains (strUpper c.Name)) ""] := by
        simp [contourStep, hl, harc, hrep]
      have hrnd : (contourStep ctx ls i c).rnd_emitted =
          (contour_z_move ls c.Parameters.Z (ctx.feed_z.map FeedV.val)).rnd_emitted := by
        simp [contourStep, hl, harc, hrep]
      have hlar : (contourStep ctx ls i c).leadin_arc_replaced =
          (contour_z_move ls c.Parameters.Z (ctx.feed_z.map FeedV.val)).leadin_arc_replaced := by
        simp [contourStep, hl, harc, hrep]
      obtain ⟨hzo, hzr, hzl⟩ := contour_z_move_shape ls c.Parameters.Z (ctx.feed_z.map FeedV.val)
      by_cases hij : c.Parameters.I.isSome = true ∧ c.Parameters.J.isSome = true
      · rcases hzo with hz0 | ⟨lz, hz1, hnz⟩
        · refine ⟨[CC_line c.Parameters.I c.Parameters.J,
            C_line c.Parameters.X c.Parameters.Y
              (["G2", "G02"].contains (strUpper c.Name)) ""], ?_, ?_,
            hrnd.trans hzr, hlar.trans hzl⟩
          · rw [hout, if_pos hij, hz0, List.append_assoc]
            rfl
          · intro l hlz
            rcases List.mem_cons.mp hlz with rfl | hlz2
            · exact notRND_CC _ _
            · rcases List.mem_singleton.mp hlz2 with rfl
              exact notRND_C _ _ _ _
        · refine ⟨[lz, CC_line c.Parameters.I c.Parameters.J,
            C_line c.Parameters.X c.Parameters.Y
              (["G2", "G02"].contains (strUpper c.Name)) ""], ?_, ?_,
            hrnd.trans hzr, hlar.trans hzl⟩
          · rw [hout, if_pos hij, hz1, List.append_assoc, List.append_assoc]
            rfl
          · intro l hlz
            rcases List.mem_cons.mp hlz with rfl | hlz2
            · exact hnz
            · rcases List.mem_cons.mp hlz2 with rfl | hlz3
              · exact notRND_CC _ _
              · rcases List.mem_singleton.mp hlz3 with rfl
                exact notRND_C _ _ _ _
      · rcases hzo with hz0 | ⟨lz, hz1, hnz⟩
        · refine ⟨[C_line c.Parameters.X c.Parameters.Y
              (["G2", "G02"].contains (strUpper c.Name)) ""], ?_, ?_,
            hrnd.trans hzr, hlar.trans hzl⟩
          · rw [hout, if_neg hij, hz0]
          · intro l hlz
            rcases List.mem_singleton.mp hlz with rfl
            exact notRND_C _ _ _ _
        · refine ⟨[lz, C_line c.Parameters.X c.Parameters.Y
              (["G2", "G02"].contains (strUpper c.Name)) ""], ?_, ?_,
            hrnd.trans hzr, hlar.trans hzl⟩
          · rw [hout, if_neg hij, hz1, List.append_assoc]
            rfl
          · intro l hlz
            rcases List.mem_cons.mp hlz with rfl | hlz2
            · exact hnz
            · rcases List.mem_singleton.mp hlz2 with rfl
              exact notRND_C _ _ _ _
    · have hstep : contourStep ctx ls i c = ls := by
        simp [contourStep, hl, harc]
      rw [hstep]
      exact ⟨[], by rw [List.append_nil], by simp, rfl, rfl⟩

/-- Over a command span whose indices avoid the entry index (with no replacement index), the loop appends only non-`RND` lines and preserves both flags. -/
theorem contourLoop_plain (ctx : CCtx) (e : Nat) (hent : ctx.entryIndex = some e)
    (hrep : ctx.replaceIdx = Option.none) :
    ∀ (l : List Cmd) (i : Nat) (ls : CLoop),
      (∀ j, i ≤ j → j < i + l.length → ¬ j = e) →
      ∃ d, (contourLoop ctx i l ls).out = ls.out ++ d ∧ (∀ x ∈ d, notRND x) ∧
        (contourLoop ctx i l ls).rnd_emitted = ls.rnd_emitted ∧
        (contourLoop ctx i l ls).leadin_arc_replaced = ls.leadin_arc_replaced := by
  intro l
  induction l with
  | nil =>
    intro i ls _
    exact ⟨[], by rw [List.append_nil]; rfl, by simp, rfl, rfl⟩
  | cons c cs ih =>
    intro i ls hj
    have hie : ¬ i = e := hj i (Nat.le_refl i) (by simp)
    have hstep := contourStep_plain ctx ls i c
      (fun e' he' => by
        have hee : e = e' := by
          have := hent.symm.trans he'
          injection this
        rw [← hee]
        exact hie) hrep
    obtain ⟨d1, hd1, hn1, hr1, hl1⟩ := hstep
    obtain ⟨d2, hd2, hn2, hr2, hl2⟩ := ih (i + 1) (contourStep ctx ls i c)
      (fun j hj1 hj2 => hj j (by omega) (by simp at hj2 ⊢; omega))
    refine ⟨d1 ++ d2, ?_, ?_, ?_, ?_⟩
    · show (contourLoop ctx (i + 1) cs (contourStep ctx ls i c)).out = _
      rw [hd2, hd1, List.append_assoc]
    · intro x hx
      rcases List.mem_append.mp hx with h | h
      · exact hn1 x h
      · exact hn2 x h
    · show (contourLoop ctx (i + 1) cs (contourStep ctx ls i c)).rnd_emitted = _
      rw [hr2, hr1]
    · show (contourLoop ctx (i + 1) cs (contourStep ctx ls i c)).leadin_arc_replaced = _
      rw [hl2, hl1]

/-- The contour loop splits over list concatenation, with the index advanced by the first part's length. -/
theorem contourLoop_append (ctx : CCtx) :
    ∀ (l1 l2 : List Cmd) (i : Nat) (ls : CLoop),
      contourLoop ctx i (l1 ++ l2) ls =
        contourLoop ctx (i + l1.length) l2 (contourLoop ctx i l1 ls) := by
  intro l1
  induction l1 with
  | nil => intro l2 i ls; rfl
  | cons c cs ih =>
    intro l2 i ls
    show contourLoop ctx (i + 1) (cs ++ l2) (contourStep ctx ls i c) = _
    rw [ih]
    have harith : i + 1 + cs.length = i + (c :: cs).length := by
      simp [List.length_cons]
      omega
    rw [harith]
    rfl

/-- Splitting the contour loop at a known command index into prefix, that command's step, and suffix. -/
theorem contourLoop_split (ctx : CCtx) (cmds : List Cmd) (e : Nat) (ce : Cmd)
    (init : CLoop) (hce : cmds.get? e = some ce) :
    contourLoop ctx 0 cmds init =
      contourLoop ctx (e + 1) (cmds.drop (e + 1))
        (contourStep ctx (contourLoop ctx 0 (cmds.take e) init) e ce) := by
  obtain ⟨hlt, hget⟩ := List.get?_eq_some.mp hce
  have hdecomp : cmds = cmds.take e ++ ce :: cmds.drop (e + 1) := by
    conv_lhs => rw [← List.take_append_drop e cmds]
    congr 1
    rw [List.drop_eq_get_cons hlt, hget]
  have hlenT : (cmds.take e).length = e := by
    rw [List.length_take]
    exact Nat.min_eq_left (Nat.le_of_lt hlt)
  conv_lhs => rw [hdecomp]
  rw [contourLoop_append, Nat.zero_add, hlenT]
  rfl

/-- The entry iteration: after its own `Z` move, with compensation pending (flags clear) and the axis-change test firing, the step appends exactly the rounding declaration followed by the compensated entry line. -/
theorem contourStep_entry (ctx : CCtx) (ls : CLoop) (e : Nat) (ce : Cmd)
    (hent : ctx.entryIndex = some e)
    (hlin : isLinName (strUpper ce.Name) = true)
    (hxy : ce.Parameters.X.isSome = true ∨ ce.Parameters.Y.isSome = true)
    (hmb : (decide (ctx.radius_mode = "RL") || decide (ctx.radius_mode = "RR")) = true)
    (hzr : (contour_z_move ls ce.Parameters.Z
        (if strUpper ce.Name ∈ ["G0", "G00"] then some FeedV.fmax
         else ctx.feed_z.map FeedV.val)).rnd_emitted = false)
    (hzl : (contour_z_move ls ce.Parameters.Z
        (if strUpper ce.Name ∈ ["G0", "G00"] then some FeedV.fmax
         else ctx.feed_z.map FeedV.val)).leadin_arc_replaced = false)
    (hfire : axis_changed_calc ce.Parameters.X ce.Parameters.Y Option.none
        (some (contour_z_move ls ce.Parameters.Z
          (if strUpper ce.Name ∈ ["G0", "G00"] then some FeedV.fmax
           else ctx.feed_z.map FeedV.val)).st)
        ((contour_z_move ls ce.Parameters.Z
          (if strUpper ce.Name ∈ ["G0", "G00"] then some FeedV.fmax
           else ctx.feed_z.map FeedV.val)).out ++
          ["RND R" ++ fmtFixed ctx.rnd_radius 1]) = true) :
    (contourStep ctx ls e ce).out =
      (contour_z_move ls ce.Parameters.Z
        (if strUpper ce.Name ∈ ["G0", "G00"] then some FeedV.fmax
         else ctx.feed_z.map FeedV.val)).out ++
        ["RND R" ++ fmtFixed ctx.rnd_radius 1,
         (L_line ce.Parameters.X ce.Parameters.Y Option.none
           (if strUpper ce.Name ∈ ["G0", "G00"] then some FeedV.fmax
            else ctx.feed_xy.map FeedV.val) ctx.radius_mode
           (contour_z_move ls ce.Parameters.Z
             (if strUpper ce.Name ∈ ["G0", "G00"] then some FeedV.fmax
              else ctx.feed_z.map FeedV.val)).g).1] := by
  simp only [List.mem_cons, List.mem_singleton, List.not_mem_nil, or_false]
    at hzr hzl hfire
  simp [contourStep, append_changed, hlin, hxy, hent, hmb, hzr, hzl, hfire]

/-- Shape of the whole loop output around the entry move: after the prefix output comes one `RND` declaration, then the compensated entry line, then non-`RND` lines only; the rounding-declaration count rises by exactly one. -/
theorem contour_loop_entry_shape (ctx : CCtx) (cmds : List Cmd) (init : CLoop)
    (e : Nat) (ce : Cmd)
    (hctxe : ctx.entryIndex = some e)
    (hctxr : ctx.replaceIdx = Option.none)
    (hctxm : (decide (ctx.radius_mode = "RL") || decide (ctx.radius_mode = "RR")) = true)
    (hinr : init.rnd_emitted = false) (hinl : init.leadin_arc_replaced = false)
    (hce : cmds.get? e = some ce)
    (hlin : isLinName (strUpper ce.Name) = true)
    (hxy : ce.Parameters.X.isSome = true ∨ ce.Parameters.Y.isSome = true)
    (hfire : axis_changed_calc ce.Parameters.X ce.Parameters.Y Option.none
        (some (contour_z_move (contourLoop ctx 0 (cmds.take e) init) ce.Parameters.Z
          (if strUpper ce.Name ∈ ["G0", "G00"] then some FeedV.fmax
           else ctx.feed_z.map FeedV.val)).st)
        ((contour_z_move (contourLoop ctx 0 (cmds.take e) init) ce.Parameters.Z
          (if strUpper ce.Name ∈ ["G0", "G00"] then some FeedV.fmax
           else ctx.feed_z.map FeedV.val)).out ++
          ["RND R" ++ fmtFixed ctx.rnd_radius 1]) = true) :
    ∃ rest,
      (contourLoop ctx 0 cmds init).out =
        (contour_z_move (contourLoop ctx 0 (cmds.take e) init) ce.Parameters.Z
          (if strUpper ce.Name ∈ ["G0", "G00"] then some FeedV.fmax
           else ctx.feed_z.map FeedV.val)).out ++
          ("RND R" ++ fmtFixed ctx.rnd_radius 1) ::
          (L_line ce.Parameters.X ce.Parameters.Y Option.none
            (if strUpper ce.Name ∈ ["G0", "G00"] then some FeedV.fmax
             else ctx.feed_xy.map FeedV.val) ctx.radius_mode
            (contour_z_move (contourLoop ctx 0 (cmds.take e) init) ce.Parameters.Z
              (if strUpper ce.Name ∈ ["G0", "G00"] then some FeedV.fmax
               else ctx.feed_z.map FeedV.val)).g).1 :: rest ∧
      (∀ x ∈ rest, notRND x) ∧
      (contourLoop ctx 0 cmds init).out.count ("RND R" ++ fmtFixed ctx.rnd_radius 1) =
        init.out.count ("RND R" ++ fmtFixed ctx.rnd_radius 1) + 1 := by
  have hcnt0 : ∀ (d : List String), (∀ x ∈ d, notRND x) →
      d.count ("RND R" ++ fmtFixed ctx.rnd_radius 1) = 0 := by
    intro d hd
    rw [List.count_eq_zero]
    intro hmem
    exact hd _ hmem _ rfl
  obtain ⟨d0, hd0, hn0, hr0, hl0⟩ := contourLoop_plain ctx e hctxe hctxr
    (cmds.take e) 0 init
    (fun j _ hj2 hje => by
      have hlen : (cmds.take e).length ≤ e := by
        rw [List.length_take]
        exact Nat.min_le_left _ _
      omega)
  obtain ⟨hzo, hzr', hzl'⟩ := contour_z_move_shape (contourLoop ctx 0 (cmds.take e) init)
    ce.Parameters.Z
    (if strUpper ce.Name ∈ ["G0", "G00"] then some FeedV.fmax
     else ctx.feed_z.map FeedV.val)
  have hzrF : (contour_z_move (contourLoop ctx 0 (cmds.take e) init) ce.Parameters.Z
      (if strUpper ce.Name ∈ ["G0", "G00"] then some FeedV.fmax
       else ctx.feed_z.map FeedV.val)).rnd_emitted = false := by
    rw [hzr', hr0]
    exact hinr
  have hzlF : (contour_z_move (contourLoop ctx 0 (cmds.take e) init) ce.Parameters.Z
      (if strUpper ce.Name ∈ ["G0", "G00"] then some FeedV.fmax
       else ctx.feed_z.map FeedV.val)).leadin_arc_replaced = false := by
    rw [hzl', hl0]
    exact hinl
  have hstepE := contourStep_entry ctx (contourLoop ctx 0 (cmds.take e) init) e ce
    hctxe hlin hxy hctxm hzrF hzlF hfire
  obtain ⟨d2, hd2, hn2, _, _⟩ := contourLoop_plain ctx e hctxe hctxr
    (cmds.drop (e + 1)) (e + 1)
    (contourStep ctx (contourLoop ctx 0 (cmds.take e) init) e ce)
    (fun j h1 _ hje => by omega)
  have hsplit := contourLoop_split ctx cmds e ce init hce
  have hfull : (contourLoop ctx 0 cmds init).out =
      (contour_z_move (contourLoop ctx 0 (cmds.take e) init) ce.Parameters.Z
        (if strUpper ce.Name ∈ ["G0", "G00"] then some FeedV.fmax
         else ctx.feed_z.map FeedV.val)).out ++
        ("RND R" ++ fmtFixed ctx.rnd_radius 1) ::
        (L_line ce.Parameters.X ce.Parameters.Y Option.none
          (if strUpper ce.Name ∈ ["G0", "G00"] then some FeedV.fmax
           else ctx.feed_xy.map FeedV.val) ctx.radius_mode
          (contour_z_move (contourLoop ctx 0 (cmds.take e) init) ce.Parameters.Z
            (if strUpper ce.Name ∈ ["G0", "G00"] then some FeedV.fmax
             else ctx.feed_z.map FeedV.val)).g).1 :: d2 := by
    rw [hsplit, hd2, hstepE, List.append_assoc]
    rfl
  refine ⟨d2, hfull, hn2, ?_⟩
  rw [hfull, List.count_append]
  have hz : (contour_z_move (contourLoop ctx 0 (cmds.take e) init) ce.Parameters.Z
      (if strUpper ce.Name ∈ ["G0", "G00"] then some FeedV.fmax
       else ctx.feed_z.map FeedV.val)).out.count
        ("RND R" ++ fmtFixed ctx.rnd_radius 1) =
      init.out.count ("RND R" ++ fmtFixed ctx.rnd_radius 1) := by
    rcases hzo with hz0 | ⟨lz, hz1, hnz⟩
    · rw [hz0, hd0, List.count_append, hcnt0 d0 hn0]
      omega
    · rw [hz1, hd0, List.count_append, List.count_append, hcnt0 d0 hn0]
      have : [lz].count ("RND R" ++ fmtFixed ctx.rnd_radius 1) = 0 :=
        hcnt0 [lz] (fun x hx => by
          rcases List.mem_singleton.mp hx with rfl
          exact hnz)
      rw [this]
      omega
  have hrl : (("RND R" ++ fmtFixed ctx.rnd_radius 1) ::
      (L_line ce.Parameters.X ce.Parameters.Y Option.none
        (if strUpper ce.Name ∈ ["G0", "G00"] then some FeedV.fmax
         else ctx.feed_xy.map FeedV.val) ctx.radius_mode
        (contour_z_move (contourLoop ctx 0 (cmds.take e) init) ce.Parameters.Z
          (if strUpper ce.Name ∈ ["G0", "G00"] then some FeedV.fmax
           else ctx.feed_z.map FeedV.val)).g).1 :: d2).count
        ("RND R" ++ fmtFixed ctx.rnd_radius 1) = 1 := by
    have hLne : ¬ (L_line ce.Parameters.X ce.Parameters.Y Option.none
        (if strUpper ce.Name ∈ ["G0", "G00"] then some FeedV.fmax
         else ctx.feed_xy.map FeedV.val) ctx.radius_mode
        (contour_z_move (contourLoop ctx 0 (cmds.take e) init) ce.Parameters.Z
          (if strUpper ce.Name ∈ ["G0", "G00"] then some FeedV.fmax
           else ctx.feed_z.map FeedV.val)).g).1 =
        "RND R" ++ fmtFixed ctx.rnd_radius 1 :=
      notRND_L_line _ _ _ _ _ _ _
    rw [List.count_cons, List.count_cons, hcnt0 d2 hn2]
    simp only [List.mem_cons, List.mem_singleton, List.not_mem_nil, or_false] at hLne
    simp [hLne]
  rw [hz, hrl]

/-- C8 counterexample: with an `X`/`Y`-bearing arc directly before the entry move, the lead-in-arc replacement path fires: `RND R3.5` is emitted immediately before the *replaced arc* (line index 2, and the arc is re-emitted as a linear move carrying `RL`), not immediately before the entry move, and the entry move's own line (index 4) carries no compensation word at all. -/
theorem C8_counterexample :
    radius_mode_of (some c8_op) = "RL" ∧
    lead_in_calc c8_cmds = true ∧
    entry_index_calc c8_cmds = some 3 ∧
    c8_out = ["L  X+0.000  Y+0.000  R0  F9999", "L  Z-1.000  F300", "RND R3.5",
      "L  X+5.000  Y+5.000  RL  F600", "L  X+10.000  Y+10.000"] ∧
    c8_out.get? 3 ≠ some ("RND R" ++ fmtFixed (rnd_radius_of (some c8_op)) 1) ∧
    c8_out.get? 4 = some "L  X+10.000  Y+10.000" ∧
    ("L  X+10.000  Y+10.000".data.contains 'R') = false := by
  decide

theorem C8_rounding_declaration
    (g0 : EmitS) (out0 : List String) (cmds : List Cmd) (st0 : MState)
    (fxy fz : Option Q) (op : Option OpObj) (e : Nat) (ce : Cmd)
    (hmode : radius_mode_of op = "RL" ∨ radius_mode_of op = "RR")
    (hlead : lead_in_calc cmds = true)
    (hentry : entry_index_calc cmds = some e)
    (hrep : replace_leadin_arc_index_calc op cmds = Option.none)
    (hce : cmds.get? e = some ce)
    (hlin : isLinName (strUpper ce.Name) = true)
    (hxy : ce.Parameters.X.isSome = true ∨ ce.Parameters.Y.isSome = true)
    (hfire : axis_changed_calc ce.Parameters.X ce.Parameters.Y Option.none
        (some (entry_zmoved g0 out0 cmds st0 fxy fz op e ce).st)
        ((entry_zmoved g0 out0 cmds st0 fxy fz op e ce).out ++
          ["RND R" ++ fmtFixed (rnd_radius_of op) 1]) = true) :
    rnd_radius_of op =
      pyRoundTo (qmax (⟨21, 20⟩ * tool_radius_of op) (tool_radius_of op + ⟨1, 2⟩)) 1 ∧
    (∃ rest,
      (emit_contour_simple g0 out0 cmds st0 fxy fz op).1 =
        (entry_zmoved g0 out0 cmds st0 fxy fz op e ce).out ++
          ("RND R" ++ fmtFixed (rnd_radius_of op) 1) ::
          (L_line ce.Parameters.X ce.Parameters.Y Option.none (lin_feed fxy ce)
            (radius_mode_of op) (entry_zmoved g0 out0 cmds st0 fxy fz op e ce).g).1 ::
          rest) ∧
    (emit_contour_simple g0 out0 cmds st0 fxy fz op).1.count
        ("RND R" ++ fmtFixed (rnd_radius_of op) 1) =
      out0.count ("RND R" ++ fmtFixed (rnd_radius_of op) 1) + 1 := by
  have hguard : ¬ ((radius_mode_of op = "RL" ∨ radius_mode_of op = "RR") ∧
      (¬ lead_in_calc cmds ∨ entry_index_calc cmds = Option.none)) := by
    intro h
    rcases h.2 with h2 | h2
    · exact h2 hlead
    · rw [hentry] at h2
      cases h2
  have hout : (emit_contour_simple g0 out0 cmds st0 fxy fz op).1 =
      (contourLoop (contour_ctx op cmds fxy fz) 0 cmds ⟨out0, st0, g0, false, false⟩).out := by
    unfold emit_contour_simple
    rw [if_neg hguard]
  have hctxm : (decide ((contour_ctx op cmds fxy fz).radius_mode = "RL") ||
      decide ((contour_ctx op cmds fxy fz).radius_mode = "RR")) = true := by
    rcases hmode with h | h <;> simp [contour_ctx, h]
  obtain ⟨rest, hshape, hnr, hcount⟩ := contour_loop_entry_shape
    (contour_ctx op cmds fxy fz) cmds ⟨out0, st0, g0, false, false⟩ e ce
    hentry hrep hctxm rfl rfl hce hlin hxy hfire
  refine ⟨rfl, ⟨rest, ?_⟩, ?_⟩
  · rw [hout]
    exact hshape
  · rw [hout]
    exact hcount

/-- C8 witness: at the concrete three-command contour (rapid lead-in, plunge, linear entry) with side `"left"` and tool diameter 6, the emitted output contains `RND R3.5` exactly once and the rounding radius evaluates to 3.5. -/
theorem C8_witness :
    (emit_contour_simple ⟨Option.none, false⟩ [] c8w_cmds {} (some 600) (some 300)
      (some c8_op)).1.count ("RND R" ++ fmtFixed (rnd_radius_of (some c8_op)) 1) = 1 ∧
    (rnd_radius_of (some c8_op)).beq ⟨7, 2⟩ = true ∧
    fmtFixed (rnd_radius_of (some c8_op)) 1 = "3.5" := by
  have h := C8_rounding_declaration ⟨Option.none, false⟩ [] c8w_cmds {} (some 600)
    (some 300) (some c8_op) 2 ⟨"G1", { X := some 10, Y := some 10 }⟩
    (Or.inl (by decide)) (by decide) (by decide) (by decide) rfl rfl
    (Or.inl rfl) (by decide)
  exact ⟨h.2.2.trans (by decide), by decide, by decide⟩

end TNC
